import Mathlib

/-!
Verification of the natural-language parameter-extraction core of the
query_parameter_extractor repository (src/extract_parameters.py).

The Python code is shallowly embedded: pure string/regex/token logic is
translated to executable Lean functions over `List Char`, and the external
libraries (spaCy tokenization/entity tagging, rapidfuzz similarity scores,
parsedatetime) are modelled as an oracle parameter `NLP` supplied to every
function that the source lets call into those libraries.  rapidfuzz scores
are 0-100 floats in Python; they are modelled as naturals, which is enough
for every threshold comparison the code performs.  Python exceptions are not
modelled: every embedded function is total, and the only `try`-protected
regions in the source contain either library calls (absorbed by the oracle)
or pure logic ported directly.
-/

set_option maxRecDepth 100000

namespace QPE

/-! ### Python-style character and string utilities (ASCII semantics) -/

def isSpaceC (c : Char) : Bool :=
  c = ' ' || c = '\t' || c = '\n' || c = '\x0d' || c = '\x0c' || c = '\x0b'

def isDigitC (c : Char) : Bool := '0' ≤ c && c ≤ '9'

def isLowerAlphaC (c : Char) : Bool := 'a' ≤ c && c ≤ 'z'

def isUpperAlphaC (c : Char) : Bool := 'A' ≤ c && c ≤ 'Z'

def isAlphaC (c : Char) : Bool := isLowerAlphaC c || isUpperAlphaC c

/-- Python `str.isalnum` restricted to ASCII. -/
def isAlnumC (c : Char) : Bool := isAlphaC c || isDigitC c

/-- Regex `\w`: word character. -/
def isWordC (c : Char) : Bool := isAlnumC c || c = '_'

def lowerC (c : Char) : Char :=
  if isUpperAlphaC c then Char.ofNat (c.toNat + 32) else c

def upperC (c : Char) : Char :=
  if isLowerAlphaC c then Char.ofNat (c.toNat - 32) else c

def pyLower (s : String) : String := ⟨s.data.map lowerC⟩

def pyUpper (s : String) : String := ⟨s.data.map upperC⟩

/-- Does `needle` occur in `hay` starting at position `i`? -/
def occursAt (hay needle : List Char) (i : Nat) : Bool :=
  needle.isPrefixOf (hay.drop i)

/-- Python `hay.find(needle)`: index of the leftmost occurrence. -/
def strFindL (hay needle : List Char) : Option Nat :=
  (List.range (hay.length + 1)).find? (occursAt hay needle)

/-- Python `needle in hay` (substring containment). -/
def strContainsL (hay needle : List Char) : Bool := (strFindL hay needle).isSome

def strContainsS (hay needle : String) : Bool := strContainsL hay.data needle.data

/-- Python `hay.count(needle)`: non-overlapping occurrences, scanning left to right. -/
def countOccAux : Nat → List Char → List Char → Nat
  | 0, _, _ => 0
  | _ + 1, [], _ => 0
  | fuel + 1, c :: t, nd =>
      if nd ≠ [] && nd.isPrefixOf (c :: t) then
        1 + countOccAux fuel (List.drop (nd.length - 1) t) nd
      else
        countOccAux fuel t nd

def countOccL (hay needle : List Char) : Nat := countOccAux (hay.length + 1) hay needle

def countOccS (hay needle : String) : Nat := countOccL hay.data needle.data

/-- Helper for Python `str.split()` (split on whitespace runs, dropping empties). -/
def splitWsAux : List Char → List Char → List (List Char)
  | [], cur => if cur.isEmpty then [] else [cur.reverse]
  | c :: t, cur =>
      if isSpaceC c then
        if cur.isEmpty then splitWsAux t [] else cur.reverse :: splitWsAux t []
      else
        splitWsAux t (c :: cur)

def splitWsL (s : List Char) : List (List Char) := splitWsAux s []

/-- Python `str.strip()` (ASCII whitespace). -/
def pyStripL (s : List Char) : List Char :=
  ((s.dropWhile isSpaceC).reverse.dropWhile isSpaceC).reverse

def pyStrip (s : String) : String := ⟨pyStripL s.data⟩

/-- Replace the `len` characters at `pos` by blanks (used for the consumed-span
blanking in the multi-word city scan). -/
def blankRange (s : List Char) (pos len : Nat) : List Char :=
  s.take pos ++ List.replicate len ' ' ++ s.drop (pos + len)

/-- Python `str.isdigit` (ASCII): nonempty and all digits. -/
def pyIsDigit (s : String) : Bool := !s.data.isEmpty && s.data.all isDigitC

def digitsToNat (s : String) : Nat :=
  s.data.foldl (fun n c => n * 10 + (c.toNat - 48)) 0

/-- First-key lookup in an association list (Python dict access by key). -/
def lookupList (l : List (String × String)) (k : String) : Option String :=
  (l.find? (fun p => p.1 == k)).map (·.2)

def lookupListN (l : List (String × Nat)) (k : String) : Option Nat :=
  (l.find? (fun p => p.1 == k)).map (·.2)

/-! ### A small regex engine

Each `re` pattern of the source is transcribed into the `RE` syntax below and
decided by a backtracking matcher that returns the set of end positions of a
match beginning at a given position.  Capture groups are not tracked: the
matcher decides match existence only, which is all the ported control flow
needs (see `pyFindall` below: the group contents of a successful `findall` are
supplied by the oracle, but only when the matcher proves a match exists). -/

inductive RE where
  | eps : RE
  | cls : (Char → Bool) → RE
  | lit : List Char → RE
  | cat : RE → RE → RE
  | alt : RE → RE → RE
  | star : RE → RE
  | wordB : RE
  | eos : RE

def litAt (s : List Char) (l : List Char) (i : Nat) : Option Nat :=
  if l.isPrefixOf (s.drop i) then some (i + l.length) else none

/-- Regex `\b`: word boundary at position `i` of `s`. -/
def wordBoundaryAt (s : List Char) (i : Nat) : Bool :=
  let left := match s[i-1]? with
    | some c => i ≠ 0 && isWordC c
    | none => false
  let right := match s[i]? with
    | some c => isWordC c
    | none => false
  left != right

def dedupN (l : List Nat) : List Nat := l.dedup

/-- End positions of a match of `re` starting at `i`, computed by structural
recursion on `fuel` so that the kernel can evaluate it.  The recursion depth
of a backtracking match is bounded by the pattern size plus the number of
star iterations, and every starred subpattern must advance the position, so
`s.length + 200` fuel (see `reSearchL`) is exhaustive for every pattern
transcribed in this file. -/
def runRE (s : List Char) : Nat → RE → Nat → List Nat
  | 0, _, _ => []
  | _ + 1, .eps, i => [i]
  | _ + 1, .cls p, i =>
      match s[i]? with
      | some c => if p c then [i + 1] else []
      | none => []
  | _ + 1, .lit l, i =>
      match litAt s l i with
      | some j => [j]
      | none => []
  | fuel + 1, .cat a b, i => dedupN ((runRE s fuel a i).flatMap (runRE s fuel b))
  | fuel + 1, .alt a b, i => dedupN (runRE s fuel a i ++ runRE s fuel b i)
  | fuel + 1, .star a, i =>
      dedupN (i :: ((runRE s fuel a i).filter (i < ·)).flatMap (runRE s fuel (.star a)))
  | _ + 1, .wordB, i => if wordBoundaryAt s i then [i] else []
  | _ + 1, .eos, i => if i = s.length then [i] else []

/-- Python `re.search`: does `re` match anywhere in `s`? -/
def reSearchL (re : RE) (s : List Char) : Bool :=
  (List.range (s.length + 1)).any (fun i => !(runRE s (s.length + 200) re i).isEmpty)

def reSearchS (re : RE) (s : String) : Bool := reSearchL re s.data

/-! Combinators used to transcribe the source's patterns. -/

def strRE (s : String) : RE := .lit s.data

def cats (l : List RE) : RE := l.foldr .cat .eps

def alts1 (r : RE) (l : List RE) : RE := l.foldl .alt r

def ropt (r : RE) : RE := .alt r .eps

def rplus (r : RE) : RE := .cat r (.star r)

def wsC : RE := .cls isSpaceC

def wsPlus : RE := rplus wsC

def wsStar : RE := .star wsC

def wordPlus : RE := rplus (.cls isWordC)

def digPlus : RE := rplus (.cls isDigitC)

/-- Regex `.` (any character except newline). -/
def anyC : RE := .cls (fun c => c ≠ '\n')

def anyStar : RE := .star anyC

/-- Regex `(?:st|nd|rd|th)`. -/
def ordSuffixRE : RE := alts1 (strRE "st") [strRE "nd", strRE "rd", strRE "th"]

/-! ### Lexicon tables (module-level dictionaries of the source) -/

/-- `city_to_iata`, in the source's dict-literal order. -/
def city_to_iata : List (String × String) :=
  [("lahore", "LHE"), ("karachi", "KHI"), ("islamabad", "ISB"), ("rawalpindi", "ISB"),
   ("multan", "MUX"), ("peshawar", "PEW"), ("quetta", "UET"), ("faisalabad", "LYP"),
   ("sialkot", "SKT"), ("skardu", "KDU"), ("gilgit", "GIL"), ("sukkur", "SKZ"),
   ("gwadar", "GWD"), ("turbat", "TUK"), ("bahawalpur", "BHV"), ("dera ghazi khan", "DEA"),
   ("chitral", "CJL"), ("panjgur", "PJG"), ("moenjodaro", "MJD"), ("parachinar", "PAJ"),
   ("zhob", "PZH"), ("dalbandin", "DBA"), ("muzaffarabad", "MFG"), ("rahim yar khan", "RYK"),
   ("nawabshah", "WNS")]

def city_names : List String := city_to_iata.map (·.1)

/-- `iata_codes = set(city_to_iata.values())`; membership is all that is ever
queried, so a duplicate-preserving list is an adequate model. -/
def iata_codes : List String := city_to_iata.map (·.2)

/-- `city_to_iata[c]` (total here; the source only indexes with keys that are
known members of `city_names`). -/
def iataOf (c : String) : String := (lookupList city_to_iata c).getD ""

/-- `sorted(city_names, key=len, reverse=True)`: Python's stable sort of the
city names by decreasing length (written out; equal lengths keep dict order). -/
def sorted_cities : List String :=
  ["dera ghazi khan", "rahim yar khan", "muzaffarabad",
   "rawalpindi", "faisalabad", "bahawalpur", "moenjodaro", "parachinar",
   "islamabad", "dalbandin", "nawabshah", "peshawar",
   "karachi", "sialkot", "chitral", "panjgur",
   "lahore", "multan", "quetta", "skardu", "gilgit", "sukkur", "gwadar", "turbat",
   "zhob"]

/-- `airline_mappings`, in the source's dict-literal order. -/
def airline_mappings : List (String × List String) :=
  [("airblue", ["airblue", "air blue", "air-blue", "airblue airlines"]),
   ("serene_air", ["serene air", "serene-air", "sereneair", "serene air lines", "serene airlines"]),
   ("pia", ["pia", "pakistan international airlines", "pakistan international",
            "pakistan airlines", "pakistan air", "pakistani airlines"]),
   ("shaheen_air", ["shaheen air", "shaheen-air", "shaheenair", "shaheen airlines"]),
   ("emirates", ["emirates", "emirates airlines", "emirates airways", "ek"]),
   ("qatar_airways", ["qatar airways", "qatar", "qatar airlines", "qr"]),
   ("etihad", ["etihad", "etihad airways", "etihad airlines", "ey"]),
   ("turkish_airlines", ["turkish airlines", "turkish", "turkish airways", "tk"]),
   ("lufthansa", ["lufthansa", "lufthansa airlines", "lufthansa airways", "lh"]),
   ("british_airways", ["british airways", "british", "ba", "british airlines"]),
   ("air_arabia", ["air arabia", "air-arabia", "airarabia", "g9"]),
   ("flydubai", ["flydubai", "fly dubai", "fly-dubai", "fz"]),
   ("saudia", ["saudia", "saudi airlines", "saudi arabian airlines", "sv"]),
   ("gulf_air", ["gulf air", "gulf-air", "gulfair", "gulf airlines", "gf"]),
   ("oman_air", ["oman air", "oman-air", "omanair", "oman airlines", "wy"]),
   ("kuwait_airways", ["kuwait airways", "kuwait", "kuwait airlines", "ku"]),
   ("middle_east_airlines", ["middle east airlines", "mea", "middle eastern airlines"]),
   ("royal_jordanian", ["royal jordanian", "royal-jordanian", "rj", "jordanian airlines"]),
   ("egyptair", ["egyptair", "egypt air", "egypt-air", "egyptian airlines", "ms"]),
   ("cathay_pacific", ["cathay pacific", "cathay-pacific", "cathay", "cx"]),
   ("singapore_airlines", ["singapore airlines", "singapore", "sia", "sq"]),
   ("malaysia_airlines", ["malaysia airlines", "malaysia", "malaysian airlines", "mh"]),
   ("thai_airways", ["thai airways", "thai", "thai airlines", "tg"]),
   ("air_india", ["air india", "air-india", "airindia", "indian airlines", "ai"]),
   ("indigo", ["indigo", "indigo airlines", "6e"]),
   ("spicejet", ["spicejet", "spice jet", "spice-jet", "sg"]),
   ("china_southern", ["china southern", "china-southern", "cz"]),
   ("china_eastern", ["china eastern", "china-eastern", "mu"]),
   ("klm", ["klm", "klm airlines", "klm royal dutch airlines", "kl"]),
   ("air_france", ["air france", "air-france", "airfrance", "af"]),
   ("alitalia", ["alitalia", "alitalia airlines", "az"]),
   ("swiss", ["swiss", "swiss airlines", "swiss international", "lx"]),
   ("austrian_airlines", ["austrian airlines", "austrian", "os"]),
   ("scandinavian_airlines", ["sas", "scandinavian airlines", "scandinavian", "sk"]),
   ("american_airlines", ["american airlines", "american", "aa"]),
   ("delta", ["delta", "delta airlines", "delta airways", "dl"]),
   ("united", ["united", "united airlines", "ua"]),
   ("southwest", ["southwest", "southwest airlines", "wn"]),
   ("jetblue", ["jetblue", "jet blue", "jet-blue", "b6"]),
   ("ryanair", ["ryanair", "ryan air", "ryan-air", "fr"]),
   ("easyjet", ["easyjet", "easy jet", "easy-jet", "u2"]),
   ("wizz_air", ["wizz air", "wizz-air", "wizzair", "w6"]),
   ("norwegian", ["norwegian", "norwegian airlines", "dy"]),
   ("vueling", ["vueling", "vueling airlines", "vy"]),
   ("aeroflot", ["aeroflot", "aeroflot airlines", "su"]),
   ("korean_air", ["korean air", "korean-air", "koreanair", "ke"]),
   ("asiana", ["asiana", "asiana airlines", "oz"]),
   ("japan_airlines", ["jal", "japan airlines", "japanese airlines", "jl"]),
   ("ana", ["ana", "all nippon airways", "all nippon", "nh"]),
   ("etihad_regional", ["etihad regional", "darwin airline"]),
   ("air_canada", ["air canada", "air-canada", "aircanada", "ac"]),
   ("westjet", ["westjet", "west jet", "west-jet", "ws"])]

/-- `all_airline_keywords`: (variation.lower(), code) pairs in iteration order.
Every variation in the table is already lower-case. -/
def all_airline_keywords : List (String × String) :=
  airline_mappings.flatMap (fun p => p.2.map (fun v => (pyLower v, p.1)))

/-! ### The oracle for external NLP libraries -/

/-- One spaCy token: its text, character offset (`idx`), coarse POS tag
(`pos_`), dependency label (`dep_`), and the `is_stop` / `like_num` flags. -/
structure Token where
  text : String
  idx : Nat
  pos : String
  dep : String
  stopTok : Bool
  likeNum : Bool
  deriving DecidableEq, Repr

/-- One spaCy entity span: text, label, token index (`start`) and character
offset (`start_char`). -/
structure Ent where
  text : String
  label : String
  start : Nat
  start_char : Nat
  deriving DecidableEq, Repr

/-- The external-library oracle.  `tokens`/`ents` model `nlp(text)`; the three
`fuzzy*` fields model `rapidfuzz.process.extractOne` against the respective
fixed vocabularies; `findallO` supplies capture-group contents of an
`re.findall` call (consulted only when the embedded matcher has established
that a match exists, see `pyFindall`); `parseDate` models
`parsedatetime.Calendar().parse` followed by `strftime("%Y-%m-%d")`, returning
`none` when the parse status is 0; the three date fields are
`today`/`tomorrow`/`day after tomorrow` rendered against the wall clock. -/
structure NLP where
  tokens : String → List Token
  ents : String → List Ent
  fuzzyCity : String → String × Nat
  fuzzyClass : String → String × Nat
  fuzzyAirline : String → Option (String × Nat)
  findallO : RE → String → List (List String)
  parseDate : String → Option String
  todayD : String
  tomorrowD : String
  dayAfterD : String

/-- Well-formedness of the oracle: `process.extractOne(x, city_names)` always
returns a member of `city_names` (rapidfuzz guarantees this; the source
indexes `city_to_iata` with the result without checking). -/
def NLP.WF (o : NLP) : Prop :=
  ∀ s, (o.fuzzyCity s).1 ∈ city_names

/-- `re.findall` as used by the source: the embedded matcher decides whether a
match exists; when it does, the capture-group lists come from the oracle, and
when it does not, `findall` provably returns `[]`. -/
def pyFindall (o : NLP) (re : RE) (s : String) : List (List String) :=
  if reSearchS re s then o.findallO re s else []

/-! ### City/Location Resolver (`extract_cities_multiword`, `extract_cities`) -/

/-- The transient (airport_code, approximate token index, character offset)
triple the resolver works with. -/
structure CityMention where
  code : String
  tokenIdx : Nat
  charIdx : Nat
  deriving DecidableEq, Repr

/-- `re.finditer(r'\b[A-Z]{3}\b', text)`: start positions of word-bounded
runs of exactly three uppercase letters. -/
def findIata3 (s : List Char) : List (String × Nat) :=
  (List.range s.length).filterMap (fun i =>
    match s[i]?, s[i+1]?, s[i+2]? with
    | some a, some b, some c =>
        if isUpperAlphaC a && isUpperAlphaC b && isUpperAlphaC c
            && (decide (i = 0) || !(isWordC ((s[i-1]?).getD ' ')))
            && ((s[i+3]?).elim true (fun d => !(isWordC d))) then
          some (⟨[a, b, c]⟩, i)
        else none
    | _, _, _ => none)

/-- One iteration of the known-city scan: if `city` occurs in the working text
with non-alphanumeric characters (or string edges) on both sides of its first
occurrence, record the mention and blank the matched span. -/
def cityLoopStep (acc : List Char × List CityMention) (city : String) :
    List Char × List CityMention :=
  let tl := acc.1
  match strFindL tl city.data with
  | none => acc
  | some pos =>
      let startOk := decide (pos = 0) || !(isAlnumC ((tl[pos-1]?).getD ' '))
      let endOk := decide (pos + city.data.length = tl.length)
          || !(isAlnumC ((tl[pos + city.data.length]?).getD ' '))
      if startOk && endOk then
        (blankRange tl pos city.data.length,
         acc.2 ++ [⟨iataOf city, (splitWsL (tl.take pos)).length, pos⟩])
      else acc

/-- `extract_cities_multiword`: IATA-code scan over the uppercased text, then
the longest-first known-city scan with span blanking. -/
def extract_cities_multiword (text : String) : List CityMention :=
  let tl := (pyLower text).data
  let iataPart : List CityMention :=
    (findIata3 (pyUpper text).data).filterMap (fun p =>
      if iata_codes.contains p.1 then
        some ⟨p.1, (splitWsL (text.data.take p.2)).length, p.2⟩
      else none)
  iataPart ++ (sorted_cities.foldl cityLoopStep (tl, [])).2

/-- Entity-recognition fallback: fuzzy-match GPE/LOC entity spans against the
city lexicon, accepting similarity > 85. -/
def entPass (o : NLP) (ents : List Ent) : List CityMention :=
  ents.filterMap (fun e =>
    if e.label == "GPE" || e.label == "LOC" then
      let r := o.fuzzyCity (pyLower e.text)
      if 85 < r.2 then some ⟨iataOf r.1, e.start, e.start_char⟩ else none
    else none)

/-- Token-level fallback: exact 3-letter IATA tokens, else per-token fuzzy
matching with similarity > 90. -/
def tokenPass (o : NLP) (toks : List Token) : List CityMention :=
  toks.enum.filterMap (fun p =>
    let t := p.2
    if t.text.data.length == 3 && iata_codes.contains (pyUpper t.text) then
      some ⟨pyUpper t.text, p.1, t.idx⟩
    else
      let r := o.fuzzyCity (pyLower t.text)
      if 90 < r.2 then some ⟨iataOf r.1, p.1, t.idx⟩ else none)

/-- Deduplicate by airport code, first occurrence wins. -/
def dedupByCode (l : List CityMention) : List CityMention :=
  (l.foldl (fun (acc : List CityMention × List String) m =>
    if acc.2.contains m.code then acc else (acc.1 ++ [m], acc.2 ++ [m.code])) ([], [])).1

/-- Stable insertion for the sort by character offset. -/
def insertByCharIdx (x : CityMention) : List CityMention → List CityMention
  | [] => [x]
  | y :: ys => if x.charIdx ≤ y.charIdx then x :: y :: ys else y :: insertByCharIdx x ys

/-- Python's stable `sorted(_, key=lambda x: x[2])`. -/
def sortByCharIdx (l : List CityMention) : List CityMention := l.foldr insertByCharIdx []

def from_indicators : List String := ["from", "leaving", "departing", "starting"]

def to_indicators : List String := ["to", "towards", "going to", "arriving", "destination"]

/-- Python truthiness of an optional string (`None` and `""` are falsy). -/
def optTruthy : Option String → Bool
  | none => false
  | some s => !(s == "")

def isFromTok (t : Token) : Bool := from_indicators.contains (pyLower t.text)

def isToTok (t : Token) : Bool :=
  to_indicators.contains (pyLower t.text) || (pyLower t.text == "to" && t.dep == "prep")

/-- The first recorded mention strictly after character position `pos`. -/
def firstCityAfter (pos : Nat) (found : List CityMention) : Option String :=
  (found.find? (fun m => pos < m.charIdx)).map (·.code)

/-- One token of the directional-indicator scan: a "from"-family token fills
`source` (if still falsy) with the first mention after it, a "to"-family token
does the same for `destination`. -/
def dirStep (found : List CityMention) (st : Option String × Option String)
    (t : Token) : Option String × Option String :=
  if isFromTok t then
    if optTruthy st.1 then st
    else match firstCityAfter t.idx found with
      | some c => (some c, st.2)
      | none => st
  else if isToTok t then
    if optTruthy st.2 then st
    else match firstCityAfter t.idx found with
      | some c => (st.1, some c)
      | none => st
  else st

/-- The directional pass of `extract_cities` (the `for token in doc:` loop). -/
def directionalPass (toks : List Token) (found : List CityMention) :
    Option String × Option String :=
  toks.foldl (dirStep found) (none, none)

/-- Position-based fallback when the directional pass assigned nothing. -/
def posFallback (ql : String) (found : List CityMention)
    (st : Option String × Option String) : Option String × Option String :=
  if !optTruthy st.1 && !optTruthy st.2 && !found.isEmpty then
    match found with
    | [] => st
    | [m] =>
        if (to_indicators ++ ["going", "want to go"]).any (fun w => strContainsS ql w) then
          (st.1, some m.code)
        else (some m.code, st.2)
    | m1 :: m2 :: _ => (some m1.code, some m2.code)
  else st

/-- Gap filling: when exactly one slot is set and several mentions exist, fill
the other slot with the first mention whose code differs. -/
def gapFill (found : List CityMention) (st : Option String × Option String) :
    Option String × Option String :=
  if optTruthy st.1 && !optTruthy st.2 && 1 < found.length then
    match st.1 with
    | some s =>
        match found.find? (fun m => !(m.code == s)) with
        | some m => (st.1, some m.code)
        | none => st
    | none => st
  else if optTruthy st.2 && !optTruthy st.1 && 1 < found.length then
    match st.2 with
    | some d =>
        match found.find? (fun m => !(m.code == d)) with
        | some m => (some m.code, st.2)
        | none => st
    | none => st
  else st

/-- Final consistency step of `extract_cities`: if the two slots compare equal
(including `None == None`), reassign positionally or drop the destination. -/
def cityConsistency (found : List CityMention) (st : Option String × Option String) :
    Option String × Option String :=
  if st.1 == st.2 then
    match found with
    | m1 :: m2 :: _ => (some m1.code, some m2.code)
    | _ => (st.1, none)
  else st

/-- `extract_cities(query)`. -/
def extract_cities (o : NLP) (query : String) : Option String × Option String :=
  let ql := pyLower query
  let toks := o.tokens ql
  let fc0 := extract_cities_multiword ql
  let fc1 := if fc0.isEmpty then entPass o (o.ents ql) else fc0
  let fc2 := if fc1.isEmpty then tokenPass o toks else fc1
  let found := sortByCharIdx (dedupByCode fc2)
  cityConsistency found (gapFill found (posFallback ql found (directionalPass toks found)))

/-! ### Flight-Type Classifier (`extract_flight_type`) -/

def strong_return_keywords : List String :=
  ["return", "round trip", "round-trip", "roundtrip", "two way", "two-way",
   "return ticket", "return flight", "both ways"]

/-- `(?:w\s+)?` for a literal word `w`. -/
def optWordWs (w : String) : RE := ropt (cats [strRE w, wsPlus])

/-- `r'(?:and\s+)?(?:then\s+)?back\s+to\s+\w+'` -/
def ftPat1 : RE :=
  cats [optWordWs "and", optWordWs "then", strRE "back", wsPlus, strRE "to", wsPlus, wordPlus]

/-- `r'(?:and\s+)?(?:then\s+)?(?:come\s+)?back\s+(?:to\s+)?\w+'` -/
def ftPat2 : RE :=
  cats [optWordWs "and", optWordWs "then", optWordWs "come", strRE "back", wsPlus,
        optWordWs "to", wordPlus]

/-- `r'between\s+.?\s+and\s+.?(?:\d|today|tomorrow)'` -/
def ftPat3 : RE :=
  cats [strRE "between", wsPlus, ropt anyC, wsPlus, strRE "and", wsPlus, ropt anyC,
        alts1 (.cls isDigitC) [strRE "today", strRE "tomorrow"]]

/-- `r'(?:from\s+)?\w+\s+to\s+\w+\s+and\s+(?:then\s+)?(?:back\s+to|return\s+to)\s+\w+'` -/
def ftPat4 : RE :=
  cats [optWordWs "from", wordPlus, wsPlus, strRE "to", wsPlus, wordPlus, wsPlus,
        strRE "and", wsPlus, optWordWs "then",
        .alt (cats [strRE "back", wsPlus, strRE "to"]) (cats [strRE "return", wsPlus, strRE "to"]),
        wsPlus, wordPlus]

/-- `r'(?:from\s+)?\w+\s+to\s+\w+.*?(?:and\s+)?(?:then\s+)?(?:back|return)'` -/
def ftPat5 : RE :=
  cats [optWordWs "from", wordPlus, wsPlus, strRE "to", wsPlus, wordPlus, anyStar,
        optWordWs "and", optWordWs "then", .alt (strRE "back") (strRE "return")]

/-- `r'(?:go|travel|fly)\s+.*?(?:and\s+)?(?:then\s+)?(?:come\s+)?back'` -/
def ftPat6 : RE :=
  cats [alts1 (strRE "go") [strRE "travel", strRE "fly"], wsPlus, anyStar,
        optWordWs "and", optWordWs "then", optWordWs "come", strRE "back"]

/-- `r'(?:trip|journey)\s+(?:from\s+)?\w+\s+to\s+\w+\s+and\s+back'` -/
def ftPat7 : RE :=
  cats [.alt (strRE "trip") (strRE "journey"), wsPlus, optWordWs "from", wordPlus, wsPlus,
        strRE "to", wsPlus, wordPlus, wsPlus, strRE "and", wsPlus, strRE "back"]

def return_patterns : List RE := [ftPat1, ftPat2, ftPat3, ftPat4, ftPat5, ftPat6, ftPat7]

/-- `r'between\s+\w+.*?and\s+\w+'` -/
def ftBetweenPat : RE :=
  cats [strRE "between", wsPlus, wordPlus, anyStar, strRE "and", wsPlus, wordPlus]

def strong_temporal_indicators : List String :=
  ["and back", "then back", "return on", "coming back on",
   "back on", "go and come back", "there and back"]

/-- `r'(?:from\s+)?\d+(?:st|nd|rd|th)?\s+.*?(?:to|and|until)\s+\d+(?:st|nd|rd|th)'` -/
def ftDateRange1 : RE :=
  cats [optWordWs "from", digPlus, ropt ordSuffixRE, wsPlus, anyStar,
        alts1 (strRE "to") [strRE "and", strRE "until"], wsPlus, digPlus, ordSuffixRE]

/-- `r'(?:on\s+)?\d+(?:st|nd|rd|th)?\s+.*?(?:and\s+back\s+on|and\s+return\s+on)\s+\d+(?:st|nd|rd|th)'` -/
def ftDateRange2 : RE :=
  cats [optWordWs "on", digPlus, ropt ordSuffixRE, wsPlus, anyStar,
        .alt (cats [strRE "and", wsPlus, strRE "back", wsPlus, strRE "on"])
             (cats [strRE "and", wsPlus, strRE "return", wsPlus, strRE "on"]),
        wsPlus, digPlus, ordSuffixRE]

def date_range_patterns : List RE := [ftDateRange1, ftDateRange2]

def strong_connectors : List String := ["and then to", "and back to", "then to", "then back"]

/-- `r'\bgo\b.*\bback\b'` -/
def ftFinal1 : RE := cats [.wordB, strRE "go", .wordB, anyStar, .wordB, strRE "back", .wordB]

/-- `r'\bthere\b.*\bback\b'` -/
def ftFinal2 : RE := cats [.wordB, strRE "there", .wordB, anyStar, .wordB, strRE "back", .wordB]

/-- `r'\bfly\b.*\breturn\b'` -/
def ftFinal3 : RE := cats [.wordB, strRE "fly", .wordB, anyStar, .wordB, strRE "return", .wordB]

def final_return_checks : List RE := [ftFinal1, ftFinal2, ftFinal3]

/-- `extract_flight_type(query)`: the first-match-wins cascade, defaulting to
`one_way`.  The `try` block of the source only guards the (unused) `nlp` call;
its city-counting logic is pure and ported directly. -/
def extract_flight_type (query : String) : String :=
  let ql := pyLower query
  if strong_return_keywords.any (fun k => strContainsS ql k) then "return"
  else if return_patterns.any (fun p => reSearchS p ql) then "return"
  else if strContainsS ql "between" && reSearchS ftBetweenPat ql then "return"
  else if strong_temporal_indicators.any (fun k => strContainsS ql k) then "return"
  else if date_range_patterns.any (fun p => reSearchS p ql) then "return"
  else if city_names.any (fun c => strContainsS ql c && 1 < countOccS ql c) then "return"
  else if 2 ≤ (city_names.filter (fun c => strContainsS ql c)).length
          && strong_connectors.any (fun k => strContainsS ql k) then "return"
  else if final_return_checks.any (fun p => reSearchS p ql) then "return"
  else "one_way"

/-! ### Cabin-Class Classifier (`extract_flight_class`) -/

/-- `class_mappings`, in the source's dict-literal order. -/
def class_mappings : List (String × List String) :=
  [("first", ["first class", "first-class", "firstclass", "1st class", "first", "f class"]),
   ("business",
    ["business class", "business-class", "businessclass", "biz class", "business",
     "c class", "club class", "executive class", "executive", "j class"]),
   ("premium_economy",
    ["premium economy", "premium-economy", "premiumeconomy", "premium eco",
     "premium", "w class", "comfort plus", "economy plus", "economy+",
     "extra comfort", "preferred seating", "premium seating"]),
   ("economy",
    ["economy class", "economy-class", "economyclass", "eco class", "economy",
     "y class", "coach", "main cabin", "standard", "regular", "basic economy"])]

def all_keywords : List (String × String) :=
  class_mappings.flatMap (fun p => p.2.map (fun k => (k, p.1)))

/-- Stable insertion for Python's `sorted(_, key=lambda x: len(x[0]), reverse=True)`. -/
def insertPairByLenDesc (x : String × String) :
    List (String × String) → List (String × String)
  | [] => [x]
  | y :: ys =>
      if y.1.data.length ≤ x.1.data.length then x :: y :: ys
      else y :: insertPairByLenDesc x ys

def sortPairsByLenDesc (l : List (String × String)) : List (String × String) :=
  l.foldr insertPairByLenDesc []

def all_keywords_sorted : List (String × String) := sortPairsByLenDesc all_keywords

def class_indicators : List String := ["class", "cabin", "seat", "seating", "service"]

def luxury_indicators : List (String × List String) :=
  [("business", ["professional", "corporate", "executive", "business trip", "work travel"]),
   ("first", ["luxury", "luxurious", "premium service", "finest", "exclusive", "vip"]),
   ("premium_economy", ["comfortable", "extra space", "more room", "upgrade", "better seat"])]

def joinSpace (l : List String) : String :=
  ⟨List.intercalate " ".data (l.map (·.data))⟩

/-- Strategy 1: direct keyword substring matching, longest keywords first. -/
def fcStrategy1 (ql : String) : Option String :=
  (all_keywords_sorted.find? (fun p => strContainsS ql p.1)).map (·.2)

/-- Strategy 2, first half: keyword matching in a ±2-token window around a
class-indicator token. -/
def fcStrategy2a (toks : List Token) : Option String :=
  (toks.enum.filterMap (fun q =>
    let i := q.1
    if class_indicators.contains q.2.text then
      let ctx := joinSpace
        (((toks.drop (i - 2)).take (min toks.length (i + 3) - (i - 2))).map
          (fun u => pyLower u.text))
      (all_keywords_sorted.find? (fun p => strContainsS ctx p.1)).map (·.2)
    else none)).head?

/-- Strategy 2, second half: free-standing luxury/comfort vocabulary. -/
def fcStrategy2b (toks : List Token) : Option String :=
  let joined := joinSpace (toks.map (fun t => pyLower t.text))
  (luxury_indicators.filterMap (fun p =>
    if p.2.any (fun ind => strContainsS joined ind) then some p.1 else none)).head?

/-- `(\w+(?:\s+\w+)?)` -/
def onePlusWordsRE : RE := cats [wordPlus, ropt (cats [wsPlus, wordPlus])]

/-- The six `class_patterns` regexes (capture groups matched for existence). -/
def class_patterns : List RE :=
  [cats [.wordB, alts1 (strRE "in") [strRE "book", strRE "reserve", strRE "want",
          strRE "need", strRE "prefer"], wsPlus, onePlusWordsRE, wsPlus, strRE "class", .wordB],
   cats [.wordB, onePlusWordsRE, wsPlus, strRE "class", wsPlus,
         alts1 (strRE "seat") [strRE "ticket", strRE "flight", strRE "fare"], .wordB],
   cats [.wordB, .alt (strRE "fly") (strRE "travel"), wsPlus, onePlusWordsRE, wsPlus,
         strRE "class", .wordB],
   cats [.wordB, onePlusWordsRE, wsPlus, strRE "class", wsPlus,
         alts1 (strRE "flight") [strRE "ticket", strRE "booking"], .wordB],
   cats [.wordB, alts1 (strRE "first") [strRE "business", strRE "economy", strRE "premium"],
         wsPlus, ropt (cats [strRE "class", wsPlus]),
         alts1 (strRE "seat") [strRE "ticket", strRE "flight", strRE "cabin"], .wordB],
   cats [.wordB, alts1 (strRE "seat") [strRE "ticket", strRE "flight", strRE "cabin"],
         wsPlus, optWordWs "in", onePlusWordsRE, wsPlus, strRE "class", .wordB]]

/-- Map a captured phrase back onto the keyword table (exact or prefix match). -/
def classOfExtracted (extracted : String) : Option String :=
  (class_mappings.find? (fun p =>
    p.2.contains extracted || p.2.any (fun kw => extracted.data.isPrefixOf kw.data))).map (·.1)

/-- Strategy 3: regex-captured phrases mapped through the keyword table. -/
def fcStrategy3 (o : NLP) (ql : String) : Option String :=
  (class_patterns.flatMap (fun re =>
    (pyFindall o re ql).filterMap (fun m =>
      match m with
      | [e] => classOfExtracted (pyStrip e)
      | _ => none))).head?

def all_class_terms : List String := class_mappings.flatMap (·.2)

/-- Strategy 4: fuzzy matching of class-related nouns/adjectives, accepting a
best-match similarity strictly above 75. -/
def fcStrategy4 (o : NLP) (toks : List Token) : Option String :=
  let words := toks.filterMap (fun t =>
    if (t.pos == "NOUN" || t.pos == "ADJ") && 3 < t.text.data.length
        && (["class", "eco", "biz", "prem", "first", "bus"].any
            (fun ind => strContainsS t.text ind)) then
      some t.text
    else none)
  (words.filterMap (fun w =>
    let r := o.fuzzyClass w
    if 75 < r.2 then (class_mappings.find? (fun p => p.2.contains r.1)).map (·.1)
    else none)).head?

def context_clues : List (String × List String) :=
  [("first", ["expensive", "costly", "luxury", "premium service", "champagne", "lie flat"]),
   ("business", ["work", "corporate", "meeting", "conference", "professional", "lounge access"]),
   ("premium_economy",
    ["upgrade", "extra legroom", "more space", "comfortable", "priority boarding"])]

def flight_context : List String := ["flight", "fly", "travel", "ticket", "book", "reserve"]

/-- Strategy 5: price/luxury clues, only with generic flight-booking context. -/
def fcStrategy5 (ql : String) : Option String :=
  (context_clues.filterMap (fun p =>
    if p.2.any (fun clue =>
        strContainsS ql clue && flight_context.any (fun c => strContainsS ql c)) then
      some p.1
    else none)).head?

def abbreviation_map : List (String × String) :=
  [("f", "first"), ("j", "business"), ("c", "business"), ("w", "premium_economy"),
   ("y", "economy")]

/-- `r'\b([fjcwy])\s+class\b'` -/
def single_letter_pattern : RE :=
  cats [.wordB,
        .cls (fun c => c = 'f' || c = 'j' || c = 'c' || c = 'w' || c = 'y'),
        wsPlus, strRE "class", .wordB]

/-- Strategy 6: single-letter fare-code detection. -/
def fcStrategy6 (o : NLP) (ql : String) : Option String :=
  match pyFindall o single_letter_pattern ql with
  | [] => none
  | m :: _ =>
      match m with
      | [letter] => lookupList abbreviation_map (pyLower letter)
      | _ => none

/-- `extract_flight_class(query)`: the layered strategy cascade, default
`economy`. -/
def extract_flight_class (o : NLP) (query : String) : String :=
  let ql := pyLower query
  let toks := o.tokens ql
  match fcStrategy1 ql with
  | some c => c
  | none =>
  match fcStrategy2a toks with
  | some c => c
  | none =>
  match fcStrategy2b toks with
  | some c => c
  | none =>
  match fcStrategy3 o ql with
  | some c => c
  | none =>
  match fcStrategy4 o toks with
  | some c => c
  | none =>
  match fcStrategy5 ql with
  | some c => c
  | none =>
  match fcStrategy6 o ql with
  | some c => c
  | none => "economy"

/-! ### Date/Range Resolver (`extract_dates`) -/

/-- `special_date_map`, keyed in dict-literal order, with the wall-clock
values supplied by the oracle. -/
def specialMap (o : NLP) : List (String × String) :=
  [("day after tomorrow", o.dayAfterD), ("tomorrow", o.tomorrowD), ("today", o.todayD)]

/-- `sorted(special_date_map.keys(), key=len, reverse=True)`. -/
def sorted_specials : List String := ["day after tomorrow", "tomorrow", "today"]

/-- Head match of `r'(\d+)(st|nd|rd|th)\s+of\s+'`, returning the replacement
`\1\2 ` and the rest of the input. -/
def matchOrdinalOf (s : List Char) : Option (List Char × List Char) :=
  let digits := s.takeWhile isDigitC
  if digits.isEmpty then none
  else
    match s.drop digits.length with
    | a :: b :: s2 =>
        if [a, b] = ['s', 't'] || [a, b] = ['n', 'd'] || [a, b] = ['r', 'd']
            || [a, b] = ['t', 'h'] then
          let sp := s2.takeWhile isSpaceC
          if sp.isEmpty then none
          else
            match s2.drop sp.length with
            | 'o' :: 'f' :: s3 =>
                let sp2 := s3.takeWhile isSpaceC
                if sp2.isEmpty then none
                else some (digits ++ [a, b] ++ [' '], s3.drop sp2.length)
            | _ => none
        else none
    | _ => none

def fixOrdinalOfAux : Nat → List Char → List Char
  | 0, s => s
  | _ + 1, [] => []
  | fuel + 1, c :: t =>
      match matchOrdinalOf (c :: t) with
      | some (rep, rest) => rep ++ fixOrdinalOfAux fuel rest
      | none => c :: fixOrdinalOfAux fuel t

/-- `re.sub(r'(\d+)(st|nd|rd|th)\s+of\s+', r'\1\2 ', s)`. -/
def fixOrdinalOf (s : String) : String := ⟨fixOrdinalOfAux s.data.length s.data⟩

/-- The `normalized_text` of `extract_dates`. -/
def normalizeDates (text : String) : String :=
  pyLower (pyStrip (fixOrdinalOf (pyLower text)))

/-- `re.sub(r'\b(of|the)\b', '', s)`: delete word-bounded "of"/"the". -/
def dropOfTheAux : Nat → Bool → List Char → List Char
  | 0, _, s => s
  | _ + 1, _, [] => []
  | fuel + 1, prevWord, c :: t =>
      let nwAt : List Char → Bool := fun l =>
        match l with
        | [] => true
        | d :: _ => !isWordC d
      if !prevWord && ['o', 'f'].isPrefixOf (c :: t) && nwAt ((c :: t).drop 2) then
        dropOfTheAux fuel true ((c :: t).drop 2)
      else if !prevWord && ['t', 'h', 'e'].isPrefixOf (c :: t) && nwAt ((c :: t).drop 3) then
        dropOfTheAux fuel true ((c :: t).drop 3)
      else c :: dropOfTheAux fuel (isWordC c) t

def dropOfThe (s : String) : String := ⟨dropOfTheAux s.data.length false s.data⟩

/-- Special-map lookup first, else the general date parser. -/
def resolveSpecialOrParse (o : NLP) (sm : List (String × String)) (ds : String) :
    Option String :=
  match lookupList sm ds with
  | some d => some d
  | none => o.parseDate ds

def firstLabeled (dates : List (String × String)) (lab : String) : Option String :=
  (dates.find? (fun p => p.1 == lab)).map (·.2)

/-- `r'between\s+(.?)\s+and\s+(.?)(?:\s|$|,|\.)'` — transcribed exactly as it
appears in the source: each capture group is `.?`, zero or one character. -/
def betweenDatesRE : RE :=
  cats [strRE "between", wsPlus, ropt anyC, wsPlus, strRE "and", wsPlus, ropt anyC,
        alts1 wsC [.eos, strRE ",", strRE "."]]

/-- Strategy 1 for return flights: the "between X and Y" pattern, cleaning the
filler words "of"/"the" from each side and labelling the first date as
departure and the second as return. -/
def strategy1_between (o : NLP) (sm : List (String × String)) (nt : String) :
    List (String × String) :=
  (pyFindall o betweenDatesRE nt).flatMap (fun m =>
    match m with
    | [d1, d2] =>
        (List.zip ["departure", "return"] [d1, d2]).filterMap (fun p =>
          (resolveSpecialOrParse o sm (dropOfThe (pyLower (pyStrip p.2)))).map
            (fun d => (p.1, d)))
    | _ => [])

def specialWordRE : RE :=
  alts1 (strRE "today") [strRE "tomorrow", strRE "day after tomorrow"]

def nonCommaC : RE := .cls (fun c => c ≠ ',')

def nonCommaDotC : RE := .cls (fun c => c ≠ ',' && c ≠ '.')

/-- The four `date_pair_patterns` regexes. -/
def date_pair_patterns : List RE :=
  [cats [.wordB, specialWordRE, .wordB, ropt anyC, .wordB,
         .alt (cats [strRE "and", wsPlus, optWordWs "then"]) (cats [strRE "then", wsPlus]),
         .wordB, ropt anyC, .wordB, specialWordRE, .wordB],
   cats [.wordB, strRE "on", wsPlus, rplus nonCommaC, wsPlus, strRE "and", wsPlus,
         optWordWs "then", optWordWs "on", rplus nonCommaC, alts1 wsC [.eos, strRE ","]],
   cats [.wordB, digPlus, ropt ordSuffixRE, ropt (cats [wsPlus, wordPlus]), wsPlus,
         alts1 (cats [strRE "and", wsPlus, optWordWs "then"])
           [cats [strRE "then", wsPlus], cats [strRE "to", wsPlus]],
         optWordWs "on", digPlus, ropt ordSuffixRE, ropt (cats [wsPlus, wordPlus]),
         alts1 wsC [.eos, strRE ","]],
   cats [digPlus, ropt ordSuffixRE, wsPlus, wordPlus, wsPlus,
         alts1 (strRE "to") [strRE "and", strRE "until"], wsPlus, digPlus, ropt ordSuffixRE,
         wsPlus, wordPlus]]

/-- Dates contributed by one two-group match of a pair pattern (strip/lower,
then special map or parser; no "of"/"the" cleaning in this strategy). -/
def pairMatchDates (o : NLP) (sm : List (String × String)) (m : List String) :
    List (String × String) :=
  match m with
  | [d1, d2] =>
      (List.zip ["departure", "return"] [d1, d2]).filterMap (fun p =>
        (resolveSpecialOrParse o sm (pyLower (pyStrip p.2))).map (fun d => (p.1, d)))
  | _ => []

/-- Run the matches of one pair pattern, with the source's early return as
soon as two dates have accumulated. -/
def runPairMatches (o : NLP) (sm : List (String × String)) :
    List (List String) → List (String × String) → List (String × String) × Bool
  | [], dates => (dates, false)
  | m :: rest, dates =>
      let dates' := dates ++ pairMatchDates o sm m
      if 2 ≤ dates'.length then (dates', true)
      else runPairMatches o sm rest dates'

def runPairPatterns (o : NLP) (sm : List (String × String)) (nt : String) :
    List RE → List (String × String) → List (String × String) × Bool
  | [], dates => (dates, false)
  | p :: ps, dates =>
      match runPairMatches o sm (pyFindall o p nt) dates with
      | (dates', true) => (dates', true)
      | (dates', false) => runPairPatterns o sm nt ps dates'

/-- The three return-indicator regexes of `indicator_patterns`. -/
def ip_return : List RE :=
  [cats [alts1 (cats [strRE "come", wsPlus, strRE "back"]) [strRE "return", strRE "back"],
         anyStar,
         alts1 (cats [strRE "on", wsPlus])
           [cats [strRE "must", wsPlus, strRE "on", wsPlus], cats [strRE "by", wsPlus]],
         rplus nonCommaDotC],
   cats [.alt (cats [strRE "must", wsPlus, strRE "on"])
           (cats [strRE "need", wsPlus, strRE "to", wsPlus, optWordWs "come", strRE "back",
                  anyStar, strRE "on"]),
         wsPlus, rplus nonCommaDotC],
   cats [.alt (cats [strRE "return", ropt anyC, strRE "on"])
           (cats [strRE "back", ropt anyC, strRE "on"]),
         wsPlus, rplus nonCommaDotC]]

/-- The two departure-indicator regexes of `indicator_patterns`. -/
def ip_departure : List RE :=
  [cats [alts1 (strRE "depart") [strRE "leave", strRE "going", strRE "travel"], anyStar,
         strRE "on", wsPlus, rplus nonCommaDotC],
   cats [strRE "on", wsPlus, rplus nonCommaDotC, anyStar,
         alts1 (strRE "going") [strRE "travel", strRE "depart", strRE "leave"]]]

/-- Strategies 3/4: dates harvested from return- and departure-indicator
phrases ("of"/"the" cleaned), return label first. -/
def indicatorDates (o : NLP) (sm : List (String × String)) (nt : String) :
    List (String × String) :=
  let runPats : String → List RE → List (String × String) := fun label pats =>
    pats.flatMap (fun p =>
      (pyFindall o p nt).filterMap (fun m =>
        match m with
        | [s] =>
            (resolveSpecialOrParse o sm (dropOfThe (pyLower (pyStrip s)))).map
              (fun d => (label, d))
        | _ => none))
  runPats "return" ip_return ++ runPats "departure" ip_departure

def removeFirstS (s needle : String) : String :=
  match strFindL s.data needle.data with
  | some p => ⟨s.data.take p ++ s.data.drop (p + needle.data.length)⟩
  | none => s

/-- The three groupless `date_patterns` of the generic fallback (a `findall`
on a pattern without groups returns whole-match strings; the oracle supplies
them as singleton lists). -/
def date_patterns5 : List RE :=
  [cats [digPlus, ropt ordSuffixRE, wsPlus, optWordWs "of", wordPlus],
   cats [wordPlus, wsPlus, digPlus, ropt ordSuffixRE],
   cats [.cls isDigitC, ropt (.cls isDigitC), .cls (fun c => c = '/' || c = '-'),
         .cls isDigitC, ropt (.cls isDigitC),
         ropt (cats [.cls (fun c => c = '/' || c = '-'), .cls isDigitC, .cls isDigitC,
                      ropt (.cls isDigitC), ropt (.cls isDigitC)])]]

/-- Strategy 5: generic fallback — special words labelled from nearby context
phrases, then any date-like substring of the text with the specials removed,
labelled from "return"/"back"/"come back" occurring in the original `text`. -/
def strategy5 (o : NLP) (sm : List (String × String)) (nt : String) (textOrig : String) :
    List (String × String) :=
  let part1 := sorted_specials.filterMap (fun w =>
    if strContainsS nt w then
      let ctx := ["come back " ++ w, "return " ++ w, "back " ++ w, "must " ++ w].any
        (fun ph => strContainsS nt ph)
      some ((if ctx then "return" else "departure"), (lookupList sm w).getD "")
    else none)
  if part1.length < 2 then
    let tws := sorted_specials.foldl (fun t w => removeFirstS t w) nt
    part1 ++ date_patterns5.flatMap (fun p =>
      (pyFindall o p tws).filterMap (fun m =>
        match m with
        | [s] =>
            (o.parseDate s).map (fun d =>
              ((if ["return", "back", "come back"].any (fun ph => strContainsS textOrig ph)
                then "return" else "departure"), d))
        | _ => none))
  else part1

/-- The return-flight branch of `extract_dates`. -/
def extract_dates_return (o : NLP) (text : String) : Option String × Option String :=
  let sm := specialMap o
  let nt := normalizeDates text
  let d1 := strategy1_between o sm nt
  if 2 ≤ d1.length then (firstLabeled d1 "departure", firstLabeled d1 "return")
  else
    match runPairPatterns o sm nt date_pair_patterns d1 with
    | (dates, true) => (firstLabeled dates "departure", firstLabeled dates "return")
    | (dates, false) =>
        let dates := dates ++ indicatorDates o sm nt
        let dates := if dates.isEmpty then strategy5 o sm nt text else dates
        let dep := firstLabeled dates "departure"
        let ret := firstLabeled dates "return"
        if optTruthy dep || optTruthy ret then (dep, ret)
        else
          match o.parseDate nt with
          | some d => (some d, none)
          | none => (none, none)

/-- The one-way branch of `extract_dates`. -/
def extract_dates_oneway (o : NLP) (text : String) : Option String :=
  let sm := specialMap o
  let nt := normalizeDates text
  match sorted_specials.find? (fun w => strContainsS nt w) with
  | some w => lookupList sm w
  | none => o.parseDate nt

/-- `extract_dates` returns a single optional date for one-way flights and a
(departure, return) pair for return flights. -/
inductive DatesResult where
  | single : Option String → DatesResult
  | pair : Option String → Option String → DatesResult
  deriving DecidableEq, Repr

/-- `extract_dates(text, flight_type)`. -/
def extract_dates (o : NLP) (text : String) (flightType : Option String) : DatesResult :=
  let ft := match flightType with
    | some t => t
    | none => extract_flight_type text
  if ft == "return" then
    let r := extract_dates_return o text
    .pair r.1 r.2
  else .single (extract_dates_oneway o text)

/-! ### Passenger-Count Resolver (`extract_passenger_count`) -/

structure PassengerCount where
  adults : Nat
  children : Nat
  infants : Nat
  deriving DecidableEq, Repr

/-- The mutable accumulator of `extract_passenger_count`.  Every value the
source ever writes into a bucket is non-negative (literal numerals, number
words, `max` updates and zeroing), so `Nat` buckets are a faithful carrier of
the Python ints. -/
structure PCState where
  adults : Nat := 0
  children : Nat := 0
  infants : Nat := 0
  processed : List Nat := []
  processedPlurals : List String := []
  familyFlag : Bool := false
  deriving DecidableEq, Repr

def adult_keywords : List String :=
  ["wife", "husband", "spouse", "partner", "mother", "father", "mom", "dad",
   "adult", "passenger", "traveler", "people", "person", "friend", "colleague",
   "brother", "sister", "uncle", "aunt", "cousin", "grandmother", "grandfather",
   "grandma", "grandpa", "man", "woman", "guy", "lady", "gentleman", "friends", "adults"]

def child_keywords : List String :=
  ["child", "children", "kid", "kids", "son", "daughter", "boy", "girl",
   "minor", "teen", "teenager", "youth"]

def infant_keywords : List String :=
  ["baby", "babies", "infant", "infants", "toddler", "toddlers", "newborn", "newborns"]

def multi_adult_keywords : List (String × Nat) :=
  [("parents", 2), ("couple", 2), ("couples", 2)]

def number_words : List (String × Nat) :=
  [("one", 1), ("two", 2), ("three", 3), ("four", 4), ("five", 5),
   ("six", 6), ("seven", 7), ("eight", 8), ("nine", 9), ("ten", 10),
   ("a", 1), ("an", 1), ("few", 3), ("several", 4), ("many", 6)]

/-- `extract_number`: a digit string parses literally, else a number word. -/
def extract_number (t : String) : Option Nat :=
  if pyIsDigit t then some (digitsToNat t) else lookupListN number_words t

/-- Python truthiness of `extract_number`'s result (`None` and `0` are falsy). -/
def truthyNum : Option Nat → Bool
  | none => false
  | some n => !(n == 0)

/-- Step 0, one index: `<number> year(s) old <category>` age classification. -/
def pcStep0i (toks : List String) (st : PCState) (i : Nat) : PCState :=
  let ti := toks.getD i ""
  if pyIsDigit ti && i + 2 < toks.length then
    if (toks.getD (i+1) "" == "year" || toks.getD (i+1) "" == "years")
        && toks.getD (i+2) "" == "old" then
      let age := digitsToNat ti
      if i + 3 < toks.length then
        let category := toks.getD (i+3) ""
        let procAll := st.processed ++ [i, i+1, i+2, i+3]
        if infant_keywords.contains category then
          if age ≤ 2 then {st with infants := st.infants + 1, processed := procAll}
          else if age ≤ 12 then {st with children := st.children + 1, processed := procAll}
          else {st with adults := st.adults + 1, processed := procAll}
        else if child_keywords.contains category then
          if age ≤ 2 then {st with infants := st.infants + 1, processed := procAll}
          else if age ≤ 12 then {st with children := st.children + 1, processed := procAll}
          else if age < 18 then {st with children := st.children + 1, processed := procAll}
          else {st with adults := st.adults + 1, processed := procAll}
        else if adult_keywords.contains category then
          {st with adults := st.adults + 1, processed := procAll}
        else st
      else
        let proc3 := st.processed ++ [i, i+1, i+2]
        if age ≤ 2 then {st with infants := st.infants + 1, processed := proc3}
        else if age ≤ 12 then {st with children := st.children + 1, processed := proc3}
        else if age < 18 then {st with children := st.children + 1, processed := proc3}
        else {st with adults := st.adults + 1, processed := proc3}
    else st
  else st

def special_patterns : List (String × String) :=
  [("family of", "total"), ("group of", "adults"), ("party of", "adults")]

/-- Step 1, one pattern: "family of N" (total semantics, sets the flag) and
"group of N"/"party of N" (max semantics). -/
def pcStep1p (ql : String) (st : PCState) (p : String × String) : PCState :=
  if strContainsS ql p.1 then
    match strFindL ql.data p.1.data with
    | some start =>
        let after := pyStrip ⟨ql.data.drop (start + p.1.data.length)⟩
        match splitWsL after.data with
        | w :: _ =>
            match extract_number ⟨w⟩ with
            | some n =>
                if n ≠ 0 then
                  if p.2 == "total" then {st with adults := n, familyFlag := true}
                  else {st with adults := max st.adults n}
                else st
            | none => st
        | [] => st
    | none => st
  else st

/-- The category checks of step 2's look-ahead window, in the source's order. -/
inductive PCat where
  | infant : PCat
  | child : PCat
  | adult : PCat
  | multi : Nat → PCat

def catOf (w : String) : Option PCat :=
  if infant_keywords.contains w then some .infant
  else if child_keywords.contains w then some .child
  else if adult_keywords.contains w then some .adult
  else match lookupListN multi_adult_keywords w with
    | some k => some (.multi k)
    | none => none

/-- Step 2, one index: number followed (within 3 tokens) by a role noun. -/
def pcStep2i (toks : List String) (st : PCState) (i : Nat) : PCState :=
  if st.processed.contains i then st
  else
    match extract_number (toks.getD i "") with
    | none => st
    | some num =>
        let js := List.range' (i+1) (min (i+4) toks.length - (i+1))
        let st' :=
          match js.find? (fun j => (catOf (toks.getD j "")).isSome) with
          | some j =>
              match catOf (toks.getD j "") with
              | some .infant =>
                  {st with infants := st.infants + num, processed := st.processed ++ [j]}
              | some .child =>
                  {st with children := st.children + num, processed := st.processed ++ [j]}
              | some .adult =>
                  {st with adults := st.adults + num, processed := st.processed ++ [j]}
              | some (.multi k) =>
                  {st with adults := st.adults + num * k, processed := st.processed ++ [j]}
              | none => st
          | none => st
        {st' with processed := st'.processed ++ [i]}

/-- Step 3, one index: bare role-noun mentions (multi-adult nouns first). -/
def pcStep3i (toks : List String) (st : PCState) (i : Nat) : PCState :=
  if st.processed.contains i then st
  else
    let t := toks.getD i ""
    match lookupListN multi_adult_keywords t with
    | some k => {st with adults := st.adults + k, processed := st.processed ++ [i]}
    | none =>
        if adult_keywords.contains t then
          {st with adults := st.adults + 1, processed := st.processed ++ [i]}
        else if child_keywords.contains t then
          {st with children := st.children + 1, processed := st.processed ++ [i]}
        else if infant_keywords.contains t then
          {st with infants := st.infants + 1, processed := st.processed ++ [i]}
        else st

def plural_defaults : List (String × Nat) :=
  [("babies", 2), ("infants", 2), ("toddlers", 2), ("kids", 2), ("children", 2),
   ("friends", 2), ("people", 3), ("adults", 2)]

/-- Step 4, one plural word: default count unless a number precedes within two
tokens; applied at most once per plural word. -/
def pcStep4p (toks : List String) (st : PCState) (p : String × Nat) : PCState :=
  let idxs := toks.enum.filterMap (fun q => if q.2 == p.1 then some q.1 else none)
  idxs.foldl (fun st idx =>
    if st.processedPlurals.contains p.1 then st
    else
      let hasNum := (List.range' (idx - 2) (idx - (idx - 2))).any (fun j =>
        pyIsDigit (toks.getD j "") || (lookupListN number_words (toks.getD j "")).isSome)
      if !hasNum then
        let st' :=
          if infant_keywords.contains p.1 then {st with infants := max st.infants p.2}
          else if child_keywords.contains p.1 then {st with children := max st.children p.2}
          else {st with adults := max st.adults p.2}
        {st' with processedPlurals := st'.processedPlurals ++ [p.1]}
      else st) st

def apoC : Char := Char.ofNat 39

/-- The speaker-detection phrases of step 6 (the second entry carries the
apostrophe of the source's "i'm traveling with"). -/
def speaker_patterns : List String :=
  ["i want to travel with", ⟨['i', apoC] ++ "m traveling with".data⟩,
   "i am traveling with", "i will travel with", "i will go with",
   "book a flight for me and", "traveling with", "with my", "me and my",
   "i want to travel", "i need to book", "book for me and"]

def family_indicators : List String :=
  ["wife", "husband", "kids", "children", "baby", "babies"]

/-- Step 6: speaker inclusion. -/
def pcStep6 (ql : String) (toks : List String) (st : PCState) : PCState :=
  let hasFirst := ["i", "me", "myself"].any (fun p => toks.contains p)
  let hasWith := toks.contains "with" || toks.contains "and"
  let st :=
    if hasFirst then
      let sp0 := speaker_patterns.any (fun p => strContainsS ql p)
      let sp1 := sp0 || (hasWith && hasFirst
        && (0 < st.adults || 0 < st.children || 0 < st.infants))
      let sp2 := sp1 || (hasFirst && family_indicators.any (fun w => toks.contains w))
      if sp2 && !st.familyFlag then {st with adults := st.adults + 1} else st
    else st
  if strContainsS ql "traveling with" && !hasFirst then
    if 0 < st.children || 0 < st.infants then {st with adults := max st.adults 1} else st
  else st

/-- Step 7: collective pronouns "we"/"us". -/
def pcStep7 (toks : List String) (st : PCState) : PCState :=
  let st :=
    if toks.contains "we" && st.adults < 2 then {st with adults := max st.adults 2} else st
  if toks.contains "us" && st.adults < 2 && st.children == 0 && st.infants == 0 then
    {st with adults := 2}
  else st

def negative_patterns : List String :=
  ["no kids", "no children", "no baby", "no babies", "no infants",
   "without kids", "without children", "without baby"]

/-- Step 8, one negation phrase. -/
def pcStep8p (ql : String) (st : PCState) (p : String) : PCState :=
  if strContainsS ql p then
    if strContainsS p "kid" || strContainsS p "child" then {st with children := 0}
    else if strContainsS p "baby" || strContainsS p "infant" then {st with infants := 0}
    else st
  else st

def compound_patterns : List (String × Nat) :=
  [("me and my", 2), ("my wife and i", 2), ("my husband and i", 2),
   ("with my brother and sister", 3), ("with two friends", 3),
   ("book a flight for me and my parents", 3), ("with my parents", 3),
   ("two couples and", 4)]

/-- Step 9, one compound phrase: floor `adults` at the listed value. -/
def pcStep9p (ql : String) (st : PCState) (p : String × Nat) : PCState :=
  if strContainsS ql p.1 then {st with adults := max st.adults p.2} else st

/-- Step 10: "few people" is an exact override, "several" a floor. -/
def pcStep10 (ql : String) (toks : List String) (st : PCState) : PCState :=
  if strContainsS ql "few people" || strContainsS ql "a few people" then
    {st with adults := 3}
  else if toks.contains "several" then {st with adults := max st.adults 4}
  else st

/-- Step 11: the all-zero default (1 adult). -/
def pcStep11 (st : PCState) : PCState :=
  if st.adults == 0 && st.children == 0 && st.infants == 0 then {st with adults := 1} else st

/-- One token of the explicit-triple re-scan: a bucket word preceded by a
truthy number overrides that bucket with the literal value. -/
def pcTripleStep (toks : List String) (st : PCState) (i : Nat) : PCState :=
  let t := toks.getD i ""
  if t == "adults" && 0 < i && truthyNum (extract_number (toks.getD (i-1) "")) then
    {st with adults := (extract_number (toks.getD (i-1) "")).getD 0}
  else if t == "children" && 0 < i && truthyNum (extract_number (toks.getD (i-1) "")) then
    {st with children := (extract_number (toks.getD (i-1) "")).getD 0}
  else if (strContainsS t "infant" || strContainsS t "infants") && 0 < i
      && truthyNum (extract_number (toks.getD (i-1) "")) then
    {st with infants := (extract_number (toks.getD (i-1) "")).getD 0}
  else st

/-- The explicit-triple pass (runs only when "adults", "children" and "infant"
all occur in the query text). -/
def pcTriple (ql : String) (toks : List String) (st : PCState) : PCState :=
  if strContainsS ql "adults" && strContainsS ql "children" && strContainsS ql "infant" then
    (List.range toks.length).foldl (pcTripleStep toks) st
  else st

/-- Steps 0-10 of `extract_passenger_count` (everything before the all-zero
default and the explicit-triple pass). -/
def pcPre (ql : String) (toks : List String) (ents : List Ent) : PCState :=
  let st : PCState := {}
  let st := (List.range toks.length).foldl (pcStep0i toks) st
  let st := special_patterns.foldl (pcStep1p ql) st
  let st := (List.range toks.length).foldl (pcStep2i toks) st
  let st := (List.range toks.length).foldl (pcStep3i toks) st
  let st := plural_defaults.foldl (pcStep4p toks) st
  let st := {st with adults :=
    st.adults + (ents.filter (fun e => e.label == "PERSON")).length}
  let st := pcStep6 ql toks st
  let st := pcStep7 toks st
  let st := negative_patterns.foldl (pcStep8p ql) st
  let st := compound_patterns.foldl (pcStep9p ql) st
  pcStep10 ql toks st

/-- `extract_passenger_count(query)`.  The source's
`query.lower().replace("'", "'")` apostrophe normalization is the identity on
the apostrophe form this file of the repository contains. -/
def extract_passenger_count (o : NLP) (query : String) : PassengerCount :=
  let ql := pyLower query
  let toks := (o.tokens ql).map (fun t => pyLower t.text)
  let st := pcTriple ql toks (pcStep11 (pcPre ql toks (o.ents ql)))
  ⟨max 0 st.adults, max 0 st.children, max 0 st.infants⟩

/-! ### Airline extractor (`extract_airline`) -/

def sorted_airline_keywords : List (String × String) :=
  sortPairsByLenDesc all_airline_keywords

def isWordOptC : Option Char → Bool
  | some c => isWordC c
  | none => false

/-- `re.search(r'\b' + re.escape(kw) + r'\b', hay)` for a literal keyword. -/
def wordBoundedContains (hay needle : List Char) : Bool :=
  match needle.head?, needle.getLast? with
  | some f, some l =>
      (List.range (hay.length + 1)).any (fun i =>
        occursAt hay needle i
        && (isWordOptC (if i = 0 then none else hay[i-1]?) != isWordC f)
        && (isWordC l != isWordOptC hay[i + needle.length]?))
  | _, _ => false

/-- Strategy 1: word-bounded direct keyword match, longest keywords first. -/
def airStrategy1 (ql : String) : Option String :=
  (sorted_airline_keywords.find? (fun kw => wordBoundedContains ql.data kw.1.data)).map (·.2)

/-- `[a-zA-Z\s-]` -/
def airNameC : RE := .cls (fun c => isAlphaC c || isSpaceC c || c = '-')

/-- The five `airline_patterns` regexes (matched with `re.IGNORECASE` against
the already-lowercased query, so letter classes are case-insensitive). -/
def airline_patterns : List RE :=
  [cats [alts1 (strRE "fly") [strRE "travel", strRE "book", strRE "reserve"], wsPlus,
         alts1 (strRE "with") [strRE "on", strRE "via"], wsPlus, rplus airNameC,
         alts1 wsC [.eos, strRE ",", strRE ".", strRE "?"]],
   cats [rplus airNameC, wsPlus,
         alts1 (strRE "flight")
           [strRE "ticket", cats [strRE "airline", ropt (strRE "s")],
            cats [strRE "airway", ropt (strRE "s")], strRE "air"],
         alts1 wsC [.eos, strRE ",", strRE "."]],
   cats [alts1 (strRE "on") [strRE "via", strRE "through"], wsPlus, rplus airNameC,
         alts1 wsC [.eos, strRE ",", strRE ".", strRE "?"]],
   cats [alts1 (strRE "prefer") [strRE "want", strRE "need", strRE "like"], wsPlus,
         rplus airNameC, alts1 wsC [.eos, strRE ",", strRE ".", strRE "?"]],
   cats [.wordB, .cls isAlphaC, .cls isAlphaC, ropt (.cls isAlphaC), wsStar,
         .cls isDigitC, .cls isDigitC, ropt (.cls isDigitC), ropt (.cls isDigitC), .wordB]]

/-- Strategy 2: pattern-captured phrases mapped onto the keyword table. -/
def airStrategy2 (o : NLP) (ql : String) : Option String :=
  (airline_patterns.flatMap (fun p =>
    (pyFindall o p ql).filterMap (fun m =>
      match m with
      | [e] =>
          let ex := pyLower (pyStrip e)
          if ex.data.length < 2 then none
          else
            (sorted_airline_keywords.find? (fun kw =>
              ex == kw.1 || strContainsS ex kw.1)).map (·.2)
      | _ => none))).head?

def airline_indicators : List String :=
  ["airlines", "airways", "air", "airline", "flight", "carrier"]

/-- Strategy 3: entity texts, then PROPN context windows (the latter only when
an airline-indicator word occurs in the query). -/
def airStrategy3 (ql : String) (toks : List Token) (ents : List Ent) :
    Option String :=
  let fromEnts := (ents.filterMap (fun e =>
    if e.label == "ORG" || e.label == "PERSON" || e.label == "GPE" then
      (sorted_airline_keywords.find? (fun kw =>
        kw.1 == pyLower e.text || strContainsS (pyLower e.text) kw.1)).map (·.2)
    else none)).head?
  match fromEnts with
  | some c => some c
  | none =>
      if airline_indicators.any (fun w => strContainsS ql w) then
        (toks.enum.filterMap (fun q =>
          let i := q.1
          if q.2.pos == "PROPN" then
            let ctx := joinSpace
              (((toks.drop (i - 2)).take (min toks.length (i + 3) - (i - 2))).map
                (fun u => pyLower u.text))
            (sorted_airline_keywords.find? (fun kw => strContainsS ctx kw.1)).map (·.2)
          else none)).head?
      else none

def airline_excluded_nouns : List String :=
  ["flight", "ticket", "booking", "travel", "trip", "journey", "airport",
   "departure", "arrival", "passenger", "seat"]

/-- Strategy 4: fuzzy matching of airline-related nouns and noun bigrams,
accepting a best-match similarity strictly above 95. -/
def airStrategy4 (o : NLP) (toks : List Token) : Option String :=
  let words1 := toks.filterMap (fun t =>
    if (t.pos == "NOUN" || t.pos == "PROPN") && 3 < t.text.data.length
        && !t.stopTok && !t.likeNum
        && !airline_excluded_nouns.contains (pyLower t.text) then
      some (pyLower t.text)
    else none)
  let words2 := (List.range (toks.length - 1)).filterMap (fun i =>
    match toks[i]?, toks[i+1]? with
    | some t1, some t2 =>
        if (t1.pos == "NOUN" || t1.pos == "PROPN")
            && (t2.pos == "NOUN" || t2.pos == "PROPN" || t2.pos == "ADJ") then
          let ph := pyLower (t1.text ++ " " ++ t2.text)
          if 6 < ph.data.length then some ph else none
        else none
    | _, _ => none)
  ((words1 ++ words2).filterMap (fun w =>
    match o.fuzzyAirline w with
    | some r =>
        if 95 < r.2 then
          (sorted_airline_keywords.find? (fun kw => kw.1 == r.1)).map (·.2)
        else none
    | none => none)).head?

/-- `extract_airline(query)`: four strategies, else `None`. -/
def extract_airline (o : NLP) (query : String) : Option String :=
  let ql := pyStrip (pyLower query)
  match airStrategy1 ql with
  | some c => some c
  | none =>
  match airStrategy2 o ql with
  | some c => some c
  | none =>
  match airStrategy3 ql (o.tokens ql) (o.ents ql) with
  | some c => some c
  | none => airStrategy4 o (o.tokens ql)

/-! ### Travel-Info Assembler (`extract_travel_info`) -/

/-- The result dictionary.  Each field's outer `Option` models presence of the
key in the Python dict (`none` = key absent); for the five string-valued
optional fields the inner `Option` models the stored value (`none` = the key
is present and holds Python `None`). -/
structure TravelRecord where
  source : Option (Option String) := none
  destination : Option (Option String) := none
  flight_type : Option String := none
  flight_class : Option String := none
  content_provider : Option (Option String) := none
  departure_date : Option (Option String) := none
  return_date : Option (Option String) := none
  passengers : Option PassengerCount := none
  total_passengers : Option Nat := none
  deriving DecidableEq, Repr

/-- `if v: result[k] = v else: result[k] = None` for a string value. -/
def keyOrNone (v : Option String) : Option (Option String) :=
  some (if optTruthy v then v else none)

/-- The date keys of the result dict: for return flights both
`departure_date` and `return_date` are set (possibly to `None`), otherwise
only `departure_date` is. -/
def dateFieldsOf (o : NLP) (query : String) (flight_type : String) :
    Option (Option String) × Option (Option String) :=
  if flight_type == "return" then
    match extract_dates o query (some flight_type) with
    | .pair dep ret => (keyOrNone dep, keyOrNone ret)
    | .single d => (keyOrNone d, none)
  else
    match extract_dates o query (some flight_type) with
    | .single d => (keyOrNone d, none)
    | .pair dep _ => (keyOrNone dep, none)

/-- `extract_travel_info(query)`: the assembler.  The `try` around the
passenger-count call only guards Python exceptions, which the embedding does
not model (every embedded resolver is total), so the passenger fields are the
resolver's output unconditionally. -/
def extract_travel_info (o : NLP) (query : String) : TravelRecord :=
  let sd := extract_cities o query
  let source := sd.1
  let destination₀ := sd.2
  let destination :=
    if optTruthy source && optTruthy destination₀ && source == destination₀ then none
    else destination₀
  let flight_type := extract_flight_type query
  let flight_class := extract_flight_class o query
  let airline := extract_airline o query
  let dateFields := dateFieldsOf o query flight_type
  let pc := extract_passenger_count o query
  { source := keyOrNone source
    destination := keyOrNone destination
    flight_type := some flight_type
    flight_class := some flight_class
    content_provider := keyOrNone airline
    departure_date := dateFields.1
    return_date := dateFields.2
    passengers := some pc
    total_passengers := some (pc.adults + pc.children + pc.infants) }

/-! ### Concrete oracles used by the example-based theorems

The token and entity lists below are the (only plausible) spaCy whitespace
and punctuation tokenizations of the test sentences, with character offsets
computed from the sentences themselves; all fuzzy scores are 0 and all
general date parses fail unless a test needs otherwise. -/

def mkTok (t : String) (i : Nat) (pos : String) : Token := ⟨t, i, pos, "", false, false⟩

/-- The oracle for inputs that contain no tokens or entities at all — in
particular the faithful oracle for the empty query, on which spaCy returns an
empty document. -/
def oracleEmpty : NLP :=
  { tokens := fun _ => []
    ents := fun _ => []
    fuzzyCity := fun _ => ("lahore", 0)
    fuzzyClass := fun _ => ("economy", 0)
    fuzzyAirline := fun _ => none
    findallO := fun _ _ => []
    parseDate := fun _ => none
    todayD := "2026-10-12"
    tomorrowD := "2026-10-13"
    dayAfterD := "2026-10-14" }

/-- Oracle for `"Travel between Nawabshah and Rahim Yar Khan"` (lower-cased by
the resolvers before the library calls). -/
def oracleC8 : NLP :=
  { oracleEmpty with
    tokens := fun s =>
      if s = "travel between nawabshah and rahim yar khan" then
        [mkTok "travel" 0 "VERB", mkTok "between" 7 "ADP",
         mkTok "nawabshah" 15 "PROPN", mkTok "and" 25 "CCONJ",
         mkTok "rahim" 29 "PROPN", mkTok "yar" 35 "PROPN", mkTok "khan" 39 "PROPN"]
      else []
    ents := fun s =>
      if s = "travel between nawabshah and rahim yar khan" then
        [⟨"nawabshah", "GPE", 2, 15⟩, ⟨"rahim yar khan", "GPE", 4, 29⟩]
      else [] }

/-- Oracle for `"to from lahore karachi"`. -/
def oracleC5 : NLP :=
  { oracleEmpty with
    tokens := fun s =>
      if s = "to from lahore karachi" then
        [mkTok "to" 0 "ADP", mkTok "from" 3 "ADP",
         mkTok "lahore" 8 "PROPN", mkTok "karachi" 15 "PROPN"]
      else [] }

/-- Oracle for `"2 adults, 0 children, 1 infant and a kid"`. -/
def oracleC9 : NLP :=
  { oracleEmpty with
    tokens := fun s =>
      if s = "2 adults, 0 children, 1 infant and a kid" then
        [mkTok "2" 0 "NUM", mkTok "adults" 2 "NOUN", mkTok "," 8 "PUNCT",
         mkTok "0" 10 "NUM", mkTok "children" 12 "NOUN", mkTok "," 20 "PUNCT",
         mkTok "1" 22 "NUM", mkTok "infant" 24 "NOUN", mkTok "and" 31 "CCONJ",
         mkTok "a" 35 "DET", mkTok "kid" 37 "NOUN"]
      else [] }

/-- Oracle family for `"flying busines"`: the best fuzzy class match for the
noun "busines" is "business" with the given similarity score. -/
def oracleScore (s : Nat) : NLP :=
  { oracleEmpty with
    tokens := fun t =>
      if t = "flying busines" then
        [mkTok "flying" 0 "VERB", mkTok "busines" 7 "NOUN"]
      else []
    fuzzyClass := fun _ => ("business", s) }

/-- The all-default record: `one_way`, `economy`, one adult, and every
location/date key unresolved (`source`, `destination`, `departure_date`,
`content_provider` present with value `None`; `return_date` absent because
the flight type is `one_way`). -/
def defaultRecord : TravelRecord :=
  { source := some none
    destination := some none
    flight_type := some "one_way"
    flight_class := some "economy"
    content_provider := some none
    departure_date := some none
    return_date := none
    passengers := some ⟨1, 0, 0⟩
    total_passengers := some 1 }

/-! ### Generic helper lemmas -/

theorem foldl_preserve {α σ : Type _} (f : σ → α → σ) (P : σ → Prop)
    (h : ∀ s a, P s → P (f s a)) : ∀ (l : List α) (s : σ), P s → P (l.foldl f s)
  | [], _, hs => hs
  | a :: l, s, hs => foldl_preserve f P h l (f s a) (h s a hs)

/-! ### Record-field unfolding lemmas for the assembler -/

theorem tr_flight_type_eq (o : NLP) (q : String) :
    (extract_travel_info o q).flight_type = some (extract_flight_type q) := rfl

theorem tr_source_eq (o : NLP) (q : String) :
    (extract_travel_info o q).source = keyOrNone (extract_cities o q).1 := rfl

theorem tr_destination_eq (o : NLP) (q : String) :
    (extract_travel_info o q).destination
      = keyOrNone
          (if optTruthy (extract_cities o q).1 && optTruthy (extract_cities o q).2
              && ((extract_cities o q).1 == (extract_cities o q).2)
           then none else (extract_cities o q).2) := rfl

theorem tr_departure_date_eq (o : NLP) (q : String) :
    (extract_travel_info o q).departure_date
      = (dateFieldsOf o q (extract_flight_type q)).1 := rfl

theorem tr_return_date_eq (o : NLP) (q : String) :
    (extract_travel_info o q).return_date
      = (dateFieldsOf o q (extract_flight_type q)).2 := rfl

theorem extract_dates_of_return (o : NLP) (q : String) :
    extract_dates o q (some "return")
      = .pair (extract_dates_return o q).1 (extract_dates_return o q).2 := rfl

theorem extract_dates_of_not_return (o : NLP) (q : String) (ft : String)
    (h : (ft == "return") = false) :
    extract_dates o q (some ft) = .single (extract_dates_oneway o q) := by
  unfold extract_dates
  rw [if_neg (by simp [h])]

theorem dateFields_fst_isSome (o : NLP) (q : String) (ft : String) :
    (dateFieldsOf o q ft).1.isSome = true := by
  unfold dateFieldsOf
  split <;> (cases extract_dates o q (some ft) <;> simp [keyOrNone])

theorem dateFields_snd_iff (o : NLP) (q : String) (ft : String) :
    (dateFieldsOf o q ft).2.isSome = true ↔ ft = "return" := by
  by_cases h : (ft == "return") = true
  · have hft : ft = "return" := by simpa using h
    subst hft
    unfold dateFieldsOf
    rw [if_pos (by simp), extract_dates_of_return]
    simp [keyOrNone]
  · have hft : ft ≠ "return" := by simpa using h
    unfold dateFieldsOf
    rw [if_neg h, extract_dates_of_not_return o q ft (by simpa using h)]
    simp [hft]

/-! ### Claim C1 -/

/-- C1: `extract_travel_info` is total — in the embedding every resolver is a
total function, and the always-present keys `flight_type`, `flight_class` and
`passengers` are set on every input — and on empty (worst-case) input it
returns exactly the all-default record: `flight_type = one_way`,
`flight_class = economy`, `passengers = {adults 1, children 0, infants 0}`,
and all location and date fields unresolved. -/
theorem C1_total_and_default :
    (∀ (o : NLP) (q : String),
        (extract_travel_info o q).flight_type.isSome = true
      ∧ (extract_travel_info o q).flight_class.isSome = true
      ∧ (extract_travel_info o q).passengers.isSome = true)
  ∧ extract_travel_info oracleEmpty "" = defaultRecord :=
  ⟨fun _ _ => ⟨rfl, rfl, rfl⟩, by decide⟩

/-! ### Claim C2 -/

/-- C2: whenever the returned record has both `source` and `destination`
resolved (keys holding actual strings, not `None`), the two airport codes
differ: the assembler's consistency step collapses an equal pair by storing
`None` under `destination`. -/
theorem C2_source_ne_destination (o : NLP) (q : String) (s d : String)
    (hs : (extract_travel_info o q).source = some (some s))
    (hd : (extract_travel_info o q).destination = some (some d)) : s ≠ d := by
  rw [tr_source_eq] at hs
  rw [tr_destination_eq] at hd
  cases hsrc : (extract_cities o q).1 with
  | none => rw [hsrc] at hs; simp [keyOrNone, optTruthy] at hs
  | some sv =>
      rw [hsrc] at hs hd
      by_cases hsv : sv = ""
      · subst hsv; simp [keyOrNone, optTruthy] at hs
      · have hs' : sv = s := by simpa [keyOrNone, optTruthy, hsv] using hs
        cases hdst : (extract_cities o q).2 with
        | none => rw [hdst] at hd; simp [keyOrNone, optTruthy] at hd
        | some dv =>
            rw [hdst] at hd
            by_cases hdv : dv = ""
            · subst hdv; simp [keyOrNone, optTruthy] at hd
            · by_cases heq : sv = dv
              · subst heq
                simp [keyOrNone, optTruthy, hsv] at hd
              · have hd' : dv = d := by
                  simpa [keyOrNone, optTruthy, hsv, hdv, heq] using hd
                subst hs' hd'
                exact heq

/-- Witness for C2 at a concrete input on which both slots resolve. -/
theorem C2_witness :
    (extract_travel_info oracleC8 "Travel between Nawabshah and Rahim Yar Khan").source
        = some (some "WNS")
  ∧ (extract_travel_info oracleC8 "Travel between Nawabshah and Rahim Yar Khan").destination
        = some (some "RYK")
  ∧ "WNS" ≠ "RYK" := by
  have h1 : (extract_travel_info oracleC8
      "Travel between Nawabshah and Rahim Yar Khan").source = some (some "WNS") := by decide
  have h2 : (extract_travel_info oracleC8
      "Travel between Nawabshah and Rahim Yar Khan").destination = some (some "RYK") := by
    decide
  exact ⟨h1, h2, C2_source_ne_destination _ _ _ _ h1 h2⟩

/-! ### Claim C3 -/

theorem truthyNum_one_le {x : Option Nat} (h : truthyNum x = true) : 1 ≤ x.getD 0 := by
  cases x with
  | none => simp [truthyNum] at h
  | some n =>
      simp only [truthyNum, Bool.not_eq_true', beq_eq_false_iff_ne] at h
      simp only [Option.getD_some]
      omega

theorem pcStep11_sum (st : PCState) :
    1 ≤ (pcStep11 st).adults + (pcStep11 st).children + (pcStep11 st).infants := by
  unfold pcStep11
  by_cases h : (st.adults == 0 && st.children == 0 && st.infants == 0) = true
  · rw [if_pos h]; dsimp only; omega
  · rw [if_neg h]
    simp only [Bool.and_eq_true, beq_iff_eq] at h
    omega

theorem pcTripleStep_sum (toks : List String) (st : PCState) (i : Nat)
    (h : 1 ≤ st.adults + st.children + st.infants) :
    1 ≤ (pcTripleStep toks st i).adults + (pcTripleStep toks st i).children
        + (pcTripleStep toks st i).infants := by
  unfold pcTripleStep
  dsimp only
  split
  · rename_i hc
    simp only [Bool.and_eq_true] at hc
    have := truthyNum_one_le hc.2
    dsimp only
    omega
  · split
    · rename_i hc
      simp only [Bool.and_eq_true] at hc
      have := truthyNum_one_le hc.2
      dsimp only
      omega
    · split
      · rename_i hc
        simp only [Bool.and_eq_true] at hc
        have := truthyNum_one_le hc.2
        dsimp only
        omega
      · exact h

theorem pcTriple_sum (ql : String) (toks : List String) (st : PCState)
    (h : 1 ≤ st.adults + st.children + st.infants) :
    1 ≤ (pcTriple ql toks st).adults + (pcTriple ql toks st).children
        + (pcTriple ql toks st).infants := by
  unfold pcTriple
  split
  · exact foldl_preserve (pcTripleStep toks)
      (fun s => 1 ≤ s.adults + s.children + s.infants)
      (fun s i hs => pcTripleStep_sum toks s i hs) _ _ h
  · exact h

theorem epc_sum (o : NLP) (q : String) :
    1 ≤ (extract_passenger_count o q).adults + (extract_passenger_count o q).children
        + (extract_passenger_count o q).infants := by
  unfold extract_passenger_count
  dsimp only
  simp only [Nat.zero_max]
  exact pcTriple_sum _ _ _ (pcStep11_sum _)

/-- C3: the passenger record of every result has naturals in all three
buckets (the embedding's buckets are `Nat`, matching the source, which only
ever adds non-negative amounts, floors with `max`, or zeroes a bucket) and
their sum is at least 1: the all-zero default fires before the explicit
triple-pattern pass, and that pass only ever overwrites a bucket with a
truthy (hence positive) literal, so no pass can end with all three zero. -/
theorem C3_passengers_invariant (o : NLP) (q : String) :
    ∃ p, (extract_travel_info o q).passengers = some p
      ∧ 1 ≤ p.adults + p.children + p.infants :=
  ⟨extract_passenger_count o q, rfl, epc_sum o q⟩

/-! ### Claim C10 -/

/-- C10: every result carries the undocumented `total_passengers` key, holding
exactly the sum of the three passenger buckets of the same record (hence 1
when the one-adult default was used). -/
theorem C10_total_passengers (o : NLP) (q : String) :
    (extract_travel_info o q).passengers = some (extract_passenger_count o q)
  ∧ (extract_travel_info o q).total_passengers
      = some ((extract_passenger_count o q).adults
          + (extract_passenger_count o q).children
          + (extract_passenger_count o q).infants) := ⟨rfl, rfl⟩

/-! ### Claim C4 -/

/-- Counterexample to C4 as stated: on the empty query no source is resolved,
yet the returned dict still carries the `source` key — holding `None` — where
the claim requires the key of an unresolved field to be absent. -/
theorem C4_counterexample :
    (extract_travel_info oracleEmpty "").source = some none := by decide

/-- C4 amended: `flight_type`, `flight_class` and `passengers` are always
present, but so are `source`, `destination`, `departure_date` and
`content_provider` (with value `None` when the field is unresolved, instead
of being omitted as the claim states); only `return_date` is conditional,
present exactly when the flight type is `return` (and even then possibly
holding `None`). -/
theorem C4_amended (o : NLP) (q : String) :
    (extract_travel_info o q).flight_type.isSome = true
  ∧ (extract_travel_info o q).flight_class.isSome = true
  ∧ (extract_travel_info o q).passengers.isSome = true
  ∧ (extract_travel_info o q).source.isSome = true
  ∧ (extract_travel_info o q).destination.isSome = true
  ∧ (extract_travel_info o q).departure_date.isSome = true
  ∧ (extract_travel_info o q).content_provider.isSome = true
  ∧ ((extract_travel_info o q).return_date.isSome = true
      ↔ (extract_travel_info o q).flight_type = some "return") := by
  refine ⟨rfl, rfl, rfl, rfl, rfl, ?_, rfl, ?_⟩
  · rw [tr_departure_date_eq]
    exact dateFields_fst_isSome o q (extract_flight_type q)
  · rw [tr_return_date_eq, tr_flight_type_eq]
    constructor
    · intro h
      rw [(dateFields_snd_iff o q (extract_flight_type q)).mp h]
    · intro h
      exact (dateFields_snd_iff o q (extract_flight_type q)).mpr (Option.some_inj.mp h)

/-! ### Claim C6 -/

/-- The code-level fact behind C6's bug report: on a return-classified query
with a well-formed multi-character "between X and Y" date phrase (the claim's
own example dates), the source's between pattern
`between\s+(.?)\s+and\s+(.?)(?:\s|$|,|\.)` — whose groups match at most one
character — finds nothing, so the between-pattern strategy contributes no
dates no matter what the date parser would have returned; the same pattern
does match when each side is a single character. -/
theorem C6_between_pattern_dead :
    extract_flight_type "return between 10th december and 15th december" = "return"
  ∧ (∀ (o : NLP) (sm : List (String × String)),
      strategy1_between o sm
        (normalizeDates "return between 10th december and 15th december") = [])
  ∧ reSearchS betweenDatesRE "between 1 and 2" = true := by
  refine ⟨by decide, ?_, by decide⟩
  intro o sm
  have hre : reSearchS betweenDatesRE
      (normalizeDates "return between 10th december and 15th december") = false := by decide
  unfold strategy1_between pyFindall
  rw [hre]
  simp

/-! ### Claim C7 -/

/-- Counterexample to C7 as stated: a class-related noun whose best fuzzy
similarity is 78 — which the claim says must be rejected, the threshold being
"exceeds 80" — is accepted by the code and classifies the query as
`business`. -/
theorem C7_counterexample :
    (oracleScore 78).fuzzyClass "busines" = ("business", 78)
  ∧ extract_flight_class (oracleScore 78) "flying busines" = "business" :=
  ⟨rfl, by decide⟩

/-- C7 amended: the fuzzy-matching layer's acceptance threshold is similarity
strictly greater than 75, not 80: on a query whose only class signal is the
fuzzy-matched noun "busines" (best match "business"), the returned class is
`business` exactly when the oracle's similarity score exceeds 75, and the
`economy` default otherwise. -/
theorem C7_amended (s : Nat) :
    extract_flight_class (oracleScore s) "flying busines"
      = if 75 < s then "business" else "economy" := by
  by_cases h : 75 < s <;>
    simp only [extract_flight_class, fcStrategy1, fcStrategy2a, fcStrategy2b, fcStrategy3,
      fcStrategy4, fcStrategy5, fcStrategy6, oracleScore, pyFindall, h, if_true, if_false] <;>
    norm_num <;> rfl

/-! ### Claim C8 -/

/-- C8: on `"Travel between Nawabshah and Rahim Yar Khan"` the earlier-offset
city resolves to source `WNS`, the next to destination `RYK`, and the
"between ... and ..." phrasing alone classifies the trip as `return` even
though the query has no dates. -/
theorem C8_between_cities_return :
    (extract_travel_info oracleC8 "Travel between Nawabshah and Rahim Yar Khan").source
        = some (some "WNS")
  ∧ (extract_travel_info oracleC8 "Travel between Nawabshah and Rahim Yar Khan").destination
        = some (some "RYK")
  ∧ (extract_travel_info oracleC8 "Travel between Nawabshah and Rahim Yar Khan").flight_type
        = some "return" :=
  ⟨by decide, by decide, by decide⟩

/-! ### Claim C9 -/

/-- Counterexample to C9 as stated: in
`"2 adults, 0 children, 1 infant and a kid"` the earlier passes count one
child (the "kid"), and the explicit triple pattern — which the claim says
overrides each bucket with the literal preceding number, "including a literal
zero" — leaves the children bucket at 1: the code's truthiness test
`extract_number(tokens[i-1])` treats a literal 0 like a missing number, so
the claimed children-to-0 override never happens. -/
theorem C9_counterexample :
    extract_passenger_count oracleC9 "2 adults, 0 children, 1 infant and a kid"
      = ⟨2, 1, 1⟩ := by decide

theorem pcTripleStep_buckets (toks : List String) (base : PCState) (x : PCState) (i : Nat)
    (hx : (x.adults = base.adults ∨ 1 ≤ x.adults)
        ∧ (x.children = base.children ∨ 1 ≤ x.children)
        ∧ (x.infants = base.infants ∨ 1 ≤ x.infants)) :
    ((pcTripleStep toks x i).adults = base.adults ∨ 1 ≤ (pcTripleStep toks x i).adults)
  ∧ ((pcTripleStep toks x i).children = base.children ∨ 1 ≤ (pcTripleStep toks x i).children)
  ∧ ((pcTripleStep toks x i).infants = base.infants ∨ 1 ≤ (pcTripleStep toks x i).infants) := by
  unfold pcTripleStep
  dsimp only
  split
  · rename_i hc
    simp only [Bool.and_eq_true] at hc
    exact ⟨Or.inr (truthyNum_one_le hc.2), hx.2.1, hx.2.2⟩
  · split
    · rename_i hc
      simp only [Bool.and_eq_true] at hc
      exact ⟨hx.1, Or.inr (truthyNum_one_le hc.2), hx.2.2⟩
    · split
      · rename_i hc
        simp only [Bool.and_eq_true] at hc
        exact ⟨hx.1, hx.2.1, Or.inr (truthyNum_one_le hc.2)⟩
      · exact hx

/-- C9 amended: in the explicit-triple pass, each bucket is either left at the
value the previous passes computed or overwritten with a number that is at
least 1 — a number token "0" before "adults"/"children"/"infant" fails the
pass's truthiness test and is ignored, so this pass can never set a bucket to
a literal zero. -/
theorem C9_amended (ql : String) (toks : List String) (st : PCState) :
    ((pcTriple ql toks st).adults = st.adults ∨ 1 ≤ (pcTriple ql toks st).adults)
  ∧ ((pcTriple ql toks st).children = st.children ∨ 1 ≤ (pcTriple ql toks st).children)
  ∧ ((pcTriple ql toks st).infants = st.infants ∨ 1 ≤ (pcTriple ql toks st).infants) := by
  unfold pcTriple
  split
  · exact foldl_preserve (pcTripleStep toks)
      (fun x => (x.adults = st.adults ∨ 1 ≤ x.adults)
        ∧ (x.children = st.children ∨ 1 ≤ x.children)
        ∧ (x.infants = st.infants ∨ 1 ≤ x.infants))
      (fun x i hx => pcTripleStep_buckets toks st x i hx)
      (List.range toks.length) st ⟨Or.inl rfl, Or.inl rfl, Or.inl rfl⟩
  · exact ⟨Or.inl rfl, Or.inl rfl, Or.inl rfl⟩

/-! ### Claim C5 -/

/-- Declarative description of one indicator family's slot after the
directional pass: the first indicator token of the family that has any city
mention after its position assigns the code of the first such mention
(whether or not that mention is already assigned to the other slot). -/
def famAssign (isFam : Token → Bool) (toks : List Token) (found : List CityMention) :
    Option String :=
  (toks.filterMap (fun t => if isFam t then firstCityAfter t.idx found else none)).head?

theorem firstCityAfter_mem {pos : Nat} {found : List CityMention} {c : String}
    (h : firstCityAfter pos found = some c) : ∃ m ∈ found, c = m.code := by
  unfold firstCityAfter at h
  cases hf : found.find? (fun m => pos < m.charIdx) with
  | none => rw [hf] at h; simp at h
  | some m =>
      rw [hf] at h
      simp only [Option.map_some'] at h
      exact ⟨m, List.mem_of_find?_eq_some hf, (Option.some_inj.mp h).symm⟩

theorem from_not_to {t : Token} (h : isFromTok t = true) : isToTok t = false := by
  unfold isFromTok at h
  have hx : pyLower t.text = "from" ∨ pyLower t.text = "leaving"
      ∨ pyLower t.text = "departing" ∨ pyLower t.text = "starting" := by
    simpa [from_indicators] using h
  rcases hx with h1 | h1 | h1 | h1 <;> simp only [isToTok, h1] <;> rfl

theorem famAssign_cons_neg (isFam : Token → Bool) (t : Token) (ts : List Token)
    (found : List CityMention) (h : isFam t = false) :
    famAssign isFam (t :: ts) found = famAssign isFam ts found := by
  unfold famAssign
  rw [List.filterMap_cons]
  simp [h]

theorem famAssign_cons_pos_some (isFam : Token → Bool) (t : Token) (ts : List Token)
    (found : List CityMention) {c : String} (h : isFam t = true)
    (hc : firstCityAfter t.idx found = some c) :
    famAssign isFam (t :: ts) found = some c := by
  unfold famAssign
  rw [List.filterMap_cons]
  simp [h, hc]

theorem famAssign_cons_pos_none (isFam : Token → Bool) (t : Token) (ts : List Token)
    (found : List CityMention) (h : isFam t = true)
    (hc : firstCityAfter t.idx found = none) :
    famAssign isFam (t :: ts) found = famAssign isFam ts found := by
  unfold famAssign
  rw [List.filterMap_cons]
  simp [h, hc]

theorem dirFold_char (found : List CityMention) (hcode : ∀ m ∈ found, m.code ≠ "") :
    ∀ (toks : List Token) (s d : Option String),
      (s = none ∨ optTruthy s = true) → (d = none ∨ optTruthy d = true) →
      toks.foldl (dirStep found) (s, d)
        = ((if s.isSome then s else famAssign isFromTok toks found),
           (if d.isSome then d else famAssign isToTok toks found)) := by
  intro toks
  induction toks with
  | nil =>
      intro s d _ _
      unfold famAssign
      simp only [List.foldl_nil, List.filterMap_nil, List.head?_nil]
      cases s <;> cases d <;> simp
  | cons t ts ih =>
      intro s d hs hd
      rw [List.foldl_cons]
      by_cases hf : isFromTok t = true
      · have hnt : isToTok t = false := from_not_to hf
        by_cases hts : optTruthy s = true
        · have hss : s.isSome = true := by cases s <;> simp_all [optTruthy]
          have hstep : dirStep found (s, d) t = (s, d) := by
            unfold dirStep; simp [hf, hts]
          rw [hstep, ih s d hs hd, famAssign_cons_neg isToTok t ts found hnt]
          simp [hss]
        · have hsn : s = none := by
            rcases hs with h | h
            · exact h
            · exact absurd h hts
          subst hsn
          cases hfc : firstCityAfter t.idx found with
          | some c =>
              have hstep : dirStep found (none, d) t = (some c, d) := by
                unfold dirStep; simp [hf, hfc, optTruthy]
              obtain ⟨m, hm, hcm⟩ := firstCityAfter_mem hfc
              have hcne : c ≠ "" := by rw [hcm]; exact hcode m hm
              have hct : optTruthy (some c) = true := by simp [optTruthy, hcne]
              rw [hstep, ih (some c) d (Or.inr hct) hd,
                  famAssign_cons_pos_some isFromTok t ts found hf hfc,
                  famAssign_cons_neg isToTok t ts found hnt]
              simp
          | none =>
              have hstep : dirStep found (none, d) t = (none, d) := by
                unfold dirStep; simp [hf, hfc, optTruthy]
              rw [hstep, ih none d (Or.inl rfl) hd,
                  famAssign_cons_pos_none isFromTok t ts found hf hfc,
                  famAssign_cons_neg isToTok t ts found hnt]
      · have hf' : isFromTok t = false := by simpa using hf
        by_cases ht : isToTok t = true
        · by_cases htd : optTruthy d = true
          · have hds : d.isSome = true := by cases d <;> simp_all [optTruthy]
            have hstep : dirStep found (s, d) t = (s, d) := by
              unfold dirStep; simp [hf', ht, htd]
            rw [hstep, ih s d hs hd, famAssign_cons_neg isFromTok t ts found hf']
            simp [hds]
          · have hdn : d = none := by
              rcases hd with h | h
              · exact h
              · exact absurd h htd
            subst hdn
            cases hfc : firstCityAfter t.idx found with
            | some c =>
                have hstep : dirStep found (s, none) t = (s, some c) := by
                  unfold dirStep; simp [hf', ht, hfc, optTruthy]
                obtain ⟨m, hm, hcm⟩ := firstCityAfter_mem hfc
                have hcne : c ≠ "" := by rw [hcm]; exact hcode m hm
                have hct : optTruthy (some c) = true := by simp [optTruthy, hcne]
                rw [hstep, ih s (some c) hs (Or.inr hct),
                    famAssign_cons_pos_some isToTok t ts found ht hfc,
                    famAssign_cons_neg isFromTok t ts found hf']
                simp
            | none =>
                have hstep : dirStep found (s, none) t = (s, none) := by
                  unfold dirStep; simp [hf', ht, hfc, optTruthy]
                rw [hstep, ih s none hs (Or.inl rfl),
                    famAssign_cons_pos_none isToTok t ts found ht hfc,
                    famAssign_cons_neg isFromTok t ts found hf']
        · have ht' : isToTok t = false := by simpa using ht
          have hstep : dirStep found (s, d) t = (s, d) := by
            unfold dirStep; simp [hf', ht']
          rw [hstep, ih s d hs hd, famAssign_cons_neg isFromTok t ts found hf',
              famAssign_cons_neg isToTok t ts found ht']

/-- Counterexample to C5 as stated: on `"to from lahore karachi"` the
directional pass assigns `LHE` to the destination (first mention after "to")
and then assigns the very same mention to the source (first mention after
"from"), even though that mention was already assigned — the claim's
"first unassigned city mention" semantics would instead give the source the
still-unassigned `KHI`. -/
theorem C5_counterexample :
    directionalPass (oracleC5.tokens "to from lahore karachi")
        (sortByCharIdx (dedupByCode (extract_cities_multiword "to from lahore karachi")))
      = (some "LHE", some "LHE") := by decide

/-- C5 amended: for every token list and mention list (with the codes
non-empty, as every lexicon code is), the directional pass fills each slot
from the first indicator token of its family that has any city mention after
its position, with the code of the first mention after that indicator —
regardless of whether that mention is already assigned to the other slot —
and each slot is set at most once by the pass. -/
theorem C5_amended (toks : List Token) (found : List CityMention)
    (hcode : ∀ m ∈ found, m.code ≠ "") :
    directionalPass toks found
      = (famAssign isFromTok toks found, famAssign isToTok toks found) := by
  unfold directionalPass
  rw [dirFold_char found hcode toks none none (Or.inl rfl) (Or.inl rfl)]
  simp

/-- Witness for C5_amended at the concrete tokens and mentions of the
counterexample input. -/
theorem C5_amended_witness :
    (∀ m ∈ sortByCharIdx (dedupByCode (extract_cities_multiword "to from lahore karachi")),
        m.code ≠ "")
  ∧ directionalPass (oracleC5.tokens "to from lahore karachi")
        (sortByCharIdx (dedupByCode (extract_cities_multiword "to from lahore karachi")))
      = (famAssign isFromTok (oracleC5.tokens "to from lahore karachi")
           (sortByCharIdx (dedupByCode (extract_cities_multiword "to from lahore karachi"))),
         famAssign isToTok (oracleC5.tokens "to from lahore karachi")
           (sortByCharIdx (dedupByCode (extract_cities_multiword "to from lahore karachi")))) :=
  ⟨by decide, C5_amended _ _ (by decide)⟩

end QPE
